import Mathlib

/-!
Shallow embedding of `source/fitz/draw-paint.c` (pixel compositing kernels of the
fitz rasterizer) and proofs of the spec claims about it.

Modelling conventions:
* Pixel buffers are `List Nat` of byte values; pointer arithmetic becomes
  `List.take` / `List.drop`; an out-of-bounds read yields the default `0`.
* A store of a C `int` into an `unsigned char` truncates: `bstore` / `bstoreN`.
* C `int` arithmetic that can go negative is done in `Int`; the arithmetic right
  shift `>> 8` of a possibly-negative `int` is floor division `Int.fdiv _ 256`.
* All `FZ_PLOTTERS_*` configuration flags are taken as enabled (the default
  build configuration), `ARCH_UNALIGNED_OK` as disabled.
* `assert` is modelled as a detectable failure (`Except.error`): with assertions
  enabled the C program aborts at that point without writing the destination.
-/

namespace DrawPaint

/-- Modelled from the spec: the `FZ_EXPAND` fixed-point primitive of
`draw-imp.h` (header not in src): `expand(a) = a + (a >> 7)`, mapping byte 255
to the unity weight 256. -/
def fz_expand (a : Nat) : Nat := a + (a >>> 7)

/-- Modelled from the spec: the `FZ_COMBINE` primitive of `draw-imp.h`
(header not in src): `combine(x, w) = (x * w) >> 8` on non-negative ints. -/
def fz_combine (x w : Nat) : Nat := (x * w) >>> 8

/-- Modelled from the spec: the `FZ_COMBINE2` primitive of `draw-imp.h`
(header not in src): `combine2(a, wa, b, wb) = combine(a, wa) + combine(b, wb)`. -/
def fz_combine2 (a wa b wb : Nat) : Nat := fz_combine a wa + fz_combine b wb

/-- Modelled from the spec: the `FZ_BLEND` primitive of `draw-imp.h` (header
not in src): `blend(src, dst, w) = dst + (((src - dst) * w) >> 8)` where the
shift of the possibly negative product is an arithmetic shift, i.e. floor
division by 256. -/
def fz_blend (s d : Int) (w : Nat) : Int := d + Int.fdiv ((s - d) * w) 256

/-- Storing a C `int` into an `unsigned char` keeps the value mod 256. -/
def bstore (x : Int) : Nat := (x % 256).toNat

/-- Storing a non-negative C `int` into an `unsigned char`. -/
def bstoreN (x : Nat) : Nat := x % 256

/-- `FZ_BLEND` followed by the byte store of its result. -/
def blendB (s d : Nat) (w : Nat) : Nat := bstore (fz_blend s d w)

/- ------------------------------------------------------------------
Solid color kernels (draw-paint.c lines 78-485).
A solid-color kernel takes the destination suffix `dp`, the channel count `n`,
the width `w`, the color array and the destination-alpha flag `da`, and returns
the updated destination suffix.
------------------------------------------------------------------- -/

/-- One full-opacity pixel loop of `template_solid_color_1_da` (lines 86-94). -/
def sol1daFull (c0 : Nat) : Nat → List Nat → List Nat
  | 0, dp => dp
  | w + 1, dp => c0 :: 255 :: sol1daFull c0 w (dp.drop 2)

/-- The partial-opacity pixel loop of `template_solid_color_1_da`
(lines 96-104). -/
def sol1daPart (c0 sa : Nat) : Nat → List Nat → List Nat
  | 0, dp => dp
  | w + 1, dp =>
      blendB c0 (dp.getD 0 0) sa :: blendB 255 (dp.getD 1 0) sa ::
        sol1daPart c0 sa w (dp.drop 2)

/-- `template_solid_color_1_da` (draw-paint.c lines 78-105). -/
def template_solid_color_1_da (dp : List Nat) (n w : Nat) (color : List Nat)
    (da : Nat) : List Nat :=
  let sa := fz_expand (color.getD 1 0)
  if sa = 0 then dp
  else if sa = 256 then sol1daFull (color.getD 0 0) w dp
  else sol1daPart (color.getD 0 0) sa w dp

/-- Read a 32-bit word from four bytes in memory order; `be` selects the
big-endian interpretation (cf. `isbigendian`, lines 107-111). -/
def load32 (be : Bool) (b0 b1 b2 b3 : Nat) : Nat :=
  if be then (((b0 <<< 8 ||| b1) <<< 8 ||| b2) <<< 8) ||| b3
  else (((b3 <<< 8 ||| b2) <<< 8 ||| b1) <<< 8) ||| b0

/-- Write a 32-bit word back to four bytes in memory order. -/
def store32 (be : Bool) (x : Nat) : List Nat :=
  if be then [(x >>> 24) % 256, (x >>> 16) % 256, (x >>> 8) % 256, x % 256]
  else [x % 256, (x >>> 8) % 256, (x >>> 16) % 256, (x >>> 24) % 256]

/-- Full-opacity loop of `template_solid_color_3_da` (lines 125-133): store the
packed `rgba` word per pixel. -/
def sol3daFull (be : Bool) (rgba : Nat) : Nat → List Nat → List Nat
  | 0, dp => dp
  | w + 1, dp => store32 be rgba ++ sol3daFull be rgba w (dp.drop 4)

/-- Partial-opacity SWAR loop of `template_solid_color_3_da` (lines 134-152). -/
def sol3daPart (be : Bool) (rb ga sa : Nat) : Nat → List Nat → List Nat
  | 0, dp => dp
  | w + 1, dp =>
      let mask : Nat := 0xFF00FF00
      let rgbaOld := load32 be (dp.getD 0 0) (dp.getD 1 0) (dp.getD 2 0) (dp.getD 3 0)
      let rbOld := (rgbaOld <<< 8) &&& mask &&& 0xFFFFFFFF
      let gaOld := rgbaOld &&& mask
      -- RB += (rb-(RB>>8))*sa and GA += (ga-(GA>>8))*sa in 32-bit arithmetic
      let rbNew := ((rbOld + (rb + 0x100000000 - (rbOld >>> 8)) * sa) &&& mask) &&& 0xFFFFFFFF
      let gaNew := ((gaOld + (ga + 0x100000000 - (gaOld >>> 8)) * sa) &&& mask) &&& 0xFFFFFFFF
      store32 be (((rbNew >>> 8) ||| gaNew) &&& 0xFFFFFFFF) ++
        sol3daPart be rb ga sa w (dp.drop 4)

/-- `template_solid_color_3_da` (draw-paint.c lines 113-153). The machine
endianness is a model parameter `be`. -/
def template_solid_color_3_da (be : Bool) (dp : List Nat) (n w : Nat)
    (color : List Nat) (da : Nat) : List Nat :=
  let rgba0 := load32 be (color.getD 0 0) (color.getD 1 0) (color.getD 2 0)
    (color.getD 3 0)
  let sa := fz_expand (color.getD 3 0)
  if sa = 0 then dp
  else
    let rgba := if be then rgba0 ||| 0x000000FF else rgba0 ||| 0xFF000000
    if sa = 256 then sol3daFull be rgba w dp
    else
      let mask : Nat := 0xFF00FF00
      let rb := rgba &&& (mask >>> 8)
      let ga := (rgba &&& mask) >>> 8
      sol3daPart be rb ga sa w dp

/-- Full-opacity loop of `template_solid_color_4_da` (lines 212-221; the
`ARCH_UNALIGNED_OK` block is compiled out). -/
def sol4daFull (c0 c1 c2 c3 : Nat) : Nat → List Nat → List Nat
  | 0, dp => dp
  | w + 1, dp => c0 :: c1 :: c2 :: c3 :: 255 :: sol4daFull c0 c1 c2 c3 w (dp.drop 5)

/-- Partial-opacity loop of `template_solid_color_4_da` (lines 223-235).
Note the source reads `dp[5]` for the alpha blend. -/
def sol4daPart (c0 c1 c2 c3 sa : Nat) : Nat → List Nat → List Nat
  | 0, dp => dp
  | w + 1, dp =>
      blendB c0 (dp.getD 0 0) sa :: blendB c1 (dp.getD 1 0) sa ::
        blendB c2 (dp.getD 2 0) sa :: blendB c3 (dp.getD 3 0) sa ::
        blendB 255 (dp.getD 5 0) sa ::
        sol4daPart c0 c1 c2 c3 sa w (dp.drop 5)

/-- `template_solid_color_4_da` (draw-paint.c lines 155-236). -/
def template_solid_color_4_da (dp : List Nat) (n w : Nat) (color : List Nat)
    (da : Nat) : List Nat :=
  let sa := fz_expand (color.getD 4 0)
  if sa = 0 then dp
  else if sa = 256 then
    sol4daFull (color.getD 0 0) (color.getD 1 0) (color.getD 2 0)
      (color.getD 3 0) w dp
  else
    sol4daPart (color.getD 0 0) (color.getD 1 0) (color.getD 2 0)
      (color.getD 3 0) sa w dp

/-- The bytes one pixel receives in the overwrite loop shared by
`template_solid_color_N_256` (lines 291-304) and the `sa == 256` branch of
`template_solid_color_N_general` (lines 329-345): color channels `0..n1-1`,
then 255 if `da` (for `n1 = 0` with `da` the single write of `color[0]` is
overwritten by the 255). -/
def solNFullPixel (n1 da : Nat) (color : List Nat) : List Nat :=
  (List.range n1).map (fun k => color.getD k 0) ++ (if da ≠ 0 then [255] else [])

/-- The per-pixel overwrite loop (`do { ... } while (--w)`) of
`template_solid_color_N_256` / `template_solid_color_N_general`. -/
def solNFullLoop (n n1 da : Nat) (color : List Nat) : Nat → List Nat → List Nat
  | 0, dp => dp
  | w + 1, dp => solNFullPixel n1 da color ++ solNFullLoop n n1 da color w (dp.drop n)

/-- One pixel of the blend loop of `template_solid_color_N_sa` (lines 312-320)
and the `sa != 256` branch of `template_solid_color_N_general` (lines 348-356). -/
def solNPartPixel (n1 da sa : Nat) (color : List Nat) (dp : List Nat) : List Nat :=
  (List.range n1).map (fun k => blendB (color.getD k 0) (dp.getD k 0) sa) ++
    (if da ≠ 0 then [blendB 255 (dp.getD n1 0) sa] else [])

/-- The per-pixel blend loop of `template_solid_color_N_sa` /
`template_solid_color_N_general`. -/
def solNPartLoop (n n1 da sa : Nat) (color : List Nat) : Nat → List Nat → List Nat
  | 0, dp => dp
  | w + 1, dp => solNPartPixel n1 da sa color dp ++ solNPartLoop n n1 da sa color w (dp.drop n)

/-- The trailing byte loop of the `n == 3 && da == 0` word-packing fast path:
same writes as the generic overwrite loop with `n = 3`. -/
def sol3ByteLoop (color : List Nat) : Nat → List Nat → List Nat :=
  solNFullLoop 3 3 0 color

/-- The `do { ... w -= 4; } while (w > 0)` word loop of
`template_solid_color_N_256` (lines 275-287), entered with the loop counter
already decremented by 4: each round writes 12 bytes (four pixels of the
repeating 3-byte color pattern); on exit the remaining `w + 4` pixels are
written by the byte loop (lines 287-304). -/
def sol3WordLoop (color : List Nat) : Nat → List Nat → List Nat
  | w, dp =>
      let pat := [color.getD 0 0, color.getD 1 0, color.getD 2 0,
                  color.getD 0 0, color.getD 1 0, color.getD 2 0,
                  color.getD 0 0, color.getD 1 0, color.getD 2 0,
                  color.getD 0 0, color.getD 1 0, color.getD 2 0]
      if h : w ≤ 4 then pat ++ sol3ByteLoop color w (dp.drop 12)
      else pat ++ sol3WordLoop color (w - 4) (dp.drop 12)
  termination_by w => w

/-- `template_solid_color_N_256` (draw-paint.c lines 238-305).  `align` models
`((intptr_t)dp) & 3`, the alignment prefix switch of the word-packing path
(lines 251-274); the byte writes of the word stores are expanded per the
`union` layout. -/
def template_solid_color_N_256 (align : Nat) (dp : List Nat) (n w : Nat)
    (color : List Nat) (da : Nat) : List Nat :=
  let n1 := n - da
  let c0 := color.getD 0 0
  let c1 := color.getD 1 0
  let c2 := color.getD 2 0
  if n = 3 ∧ da = 0 ∧ 8 ≤ w then
    let pre : List Nat :=
      if align = 3 then [c0, c1, c2, c0, c1, c2, c0, c1, c2]
      else if align = 2 then [c0, c1, c2, c0, c1, c2]
      else if align = 1 then [c0, c1, c2]
      else []
    let p := pre.length / 3
    pre ++ sol3WordLoop color (w - p - 4) (dp.drop pre.length)
  else solNFullLoop n n1 da color w dp

/-- `template_solid_color_N_sa` (draw-paint.c lines 307-321). -/
def template_solid_color_N_sa (dp : List Nat) (n w : Nat) (color : List Nat)
    (da sa : Nat) : List Nat :=
  solNPartLoop n (n - da) da sa color w dp

/-- `template_solid_color_N_general` (draw-paint.c lines 324-358). -/
def template_solid_color_N_general (dp : List Nat) (n w : Nat)
    (color : List Nat) (da sa : Nat) : List Nat :=
  if sa = 256 then solNFullLoop n (n - da) da color w dp
  else solNPartLoop n (n - da) da sa color w dp

/-- The type of `fz_solid_color_painter_t`: destination suffix, `n`, `w`,
color, `da`. -/
def SolidKernel : Type := List Nat → Nat → Nat → List Nat → Nat → List Nat

/-- `paint_solid_color_1_alpha` (lines 362-366). -/
def paint_solid_color_1_alpha : SolidKernel := fun dp _n w color _da =>
  template_solid_color_N_sa dp 1 w color 0 (fz_expand (color.getD 1 0))

/-- `paint_solid_color_1` (lines 368-372); the model pointer is 4-byte
aligned (`align = 0`), irrelevant for `n = 1`. -/
def paint_solid_color_1 : SolidKernel := fun dp _n w color _da =>
  template_solid_color_N_256 0 dp 1 w color 0

/-- `paint_solid_color_1_da` (lines 374-378). -/
def paint_solid_color_1_da : SolidKernel := fun dp _n w color _da =>
  template_solid_color_1_da dp 2 w color 1

/-- `paint_solid_color_3_alpha` (lines 382-386). -/
def paint_solid_color_3_alpha : SolidKernel := fun dp _n w color _da =>
  template_solid_color_N_sa dp 3 w color 0 (fz_expand (color.getD 3 0))

/-- `paint_solid_color_3` (lines 388-392); model pointer 4-byte aligned. -/
def paint_solid_color_3 : SolidKernel := fun dp _n w color _da =>
  template_solid_color_N_256 0 dp 3 w color 0

/-- `paint_solid_color_3_da` (lines 394-398); the model machine is
little-endian (the byte effect of both endian branches coincides). -/
def paint_solid_color_3_da : SolidKernel := fun dp _n w color _da =>
  template_solid_color_3_da false dp 4 w color 1

/-- `paint_solid_color_4_alpha` (lines 402-406). -/
def paint_solid_color_4_alpha : SolidKernel := fun dp _n w color _da =>
  template_solid_color_N_sa dp 4 w color 0 (fz_expand (color.getD 4 0))

/-- `paint_solid_color_4` (lines 408-412). -/
def paint_solid_color_4 : SolidKernel := fun dp _n w color _da =>
  template_solid_color_N_256 0 dp 4 w color 0

/-- `paint_solid_color_4_da` (lines 414-418). -/
def paint_solid_color_4_da : SolidKernel := fun dp _n w color _da =>
  template_solid_color_4_da dp 5 w color 1

/-- `paint_solid_color_N_alpha` (lines 422-426). -/
def paint_solid_color_N_alpha : SolidKernel := fun dp n w color _da =>
  template_solid_color_N_sa dp n w color 0 (fz_expand (color.getD n 0))

/-- `paint_solid_color_N` (lines 428-432). -/
def paint_solid_color_N : SolidKernel := fun dp n w color _da =>
  template_solid_color_N_256 0 dp n w color 0

/-- `paint_solid_color_N_da` (lines 434-438).  Note the source passes
`FZ_EXPAND(color[1])` as the alpha weight. -/
def paint_solid_color_N_da : SolidKernel := fun dp n w color _da =>
  template_solid_color_N_general dp n w color 1 (fz_expand (color.getD 1 0))

/-- `fz_get_solid_color_painter` (draw-paint.c lines 441-485); the switch
scrutinee `n - da` is a C `int`. -/
def fz_get_solid_color_painter (n : Nat) (color : List Nat) (da : Nat) :
    Option SolidKernel :=
  if (n : Int) - da = 1 then
    if da ≠ 0 then some paint_solid_color_1_da
    else if color.getD 1 0 = 255 then some paint_solid_color_1
    else some paint_solid_color_1_alpha
  else if (n : Int) - da = 3 then
    if da ≠ 0 then some paint_solid_color_3_da
    else if color.getD 3 0 = 255 then some paint_solid_color_3
    else some paint_solid_color_3_alpha
  else if (n : Int) - da = 4 then
    if da ≠ 0 then some paint_solid_color_4_da
    else if color.getD 4 0 = 255 then some paint_solid_color_4
    else some paint_solid_color_4_alpha
  else
    if da ≠ 0 then some paint_solid_color_N_da
    else if color.getD n 0 = 255 then some paint_solid_color_N
    else some paint_solid_color_N_alpha

/- ------------------------------------------------------------------
Span-with-solid-color kernels (draw-paint.c lines 487-811).
A span-color kernel takes destination suffix `dp`, mask suffix `mp`, `n`, `w`,
color and `da`, and returns the updated destination suffix.
------------------------------------------------------------------- -/

/-- The `sa == 256` loop of `template_span_with_color_1_da` (lines 494-516). -/
def spanColor1daFull (g : Nat) : Nat → List Nat → List Nat → List Nat
  | 0, _, dp => dp
  | w + 1, mp, dp =>
      let ma := fz_expand (mp.headD 0)
      (if ma = 0 then dp.take 2
       else if ma = 256 then [g, 255]
       else [blendB g (dp.getD 0 0) ma, blendB 255 (dp.getD 1 0) ma]) ++
        spanColor1daFull g w mp.tail (dp.drop 2)

/-- The `sa != 256` loop of `template_span_with_color_1_da` (lines 518-534). -/
def spanColor1daPart (g sa : Nat) : Nat → List Nat → List Nat → List Nat
  | 0, _, dp => dp
  | w + 1, mp, dp =>
      let ma := fz_expand (mp.headD 0)
      (if ma = 0 then dp.take 2
       else
        let ma' := fz_combine ma sa
        [blendB g (dp.getD 0 0) ma', blendB 255 (dp.getD 1 0) ma']) ++
        spanColor1daPart g sa w mp.tail (dp.drop 2)

/-- `template_span_with_color_1_da` (draw-paint.c lines 489-536). -/
def template_span_with_color_1_da (dp mp : List Nat) (n w : Nat)
    (color : List Nat) (da : Nat) : List Nat :=
  let sa := fz_expand (color.getD 1 0)
  if sa = 256 then spanColor1daFull (color.getD 0 0) w mp dp
  else spanColor1daPart (color.getD 0 0) sa w mp dp

/-- The 32-bit SWAR blend shared by the two loops of
`template_span_with_color_3_da` (lines 569-576 and 590-597). -/
def swarBlend3da (be : Bool) (mask rb ga ma : Nat) (dp : List Nat) : List Nat :=
  let rgbaOld := load32 be (dp.getD 0 0) (dp.getD 1 0) (dp.getD 2 0) (dp.getD 3 0)
  let rbOld := (rgbaOld <<< 8) &&& mask &&& 0xFFFFFFFF
  let gaOld := rgbaOld &&& mask
  let rbNew := ((rbOld + (rb + 0x100000000 - (rbOld >>> 8)) * ma) &&& mask) &&& 0xFFFFFFFF
  let gaNew := ((gaOld + (ga + 0x100000000 - (gaOld >>> 8)) * ma) &&& mask) &&& 0xFFFFFFFF
  store32 be (((rbNew >>> 8) ||| gaNew) &&& 0xFFFFFFFF)

/-- The `sa == 256` loop of `template_span_with_color_3_da` (lines 553-580). -/
def spanColor3daFull (be : Bool) (mask rgba rb ga : Nat) :
    Nat → List Nat → List Nat → List Nat
  | 0, _, dp => dp
  | w + 1, mp, dp =>
      let ma := fz_expand (mp.headD 0)
      (if ma = 0 then dp.take 4
       else if ma = 256 then store32 be rgba
       else swarBlend3da be mask rb ga ma dp) ++
        spanColor3daFull be mask rgba rb ga w mp.tail (dp.drop 4)

/-- The `sa != 256` loop of `template_span_with_color_3_da` (lines 581-601). -/
def spanColor3daPart (be : Bool) (mask rb ga sa : Nat) :
    Nat → List Nat → List Nat → List Nat
  | 0, _, dp => dp
  | w + 1, mp, dp =>
      let ma := fz_combine (fz_expand (mp.headD 0)) sa
      (if ma ≠ 0 then swarBlend3da be mask rb ga ma dp else dp.take 4) ++
        spanColor3daPart be mask rb ga sa w mp.tail (dp.drop 4)

/-- `template_span_with_color_3_da` (draw-paint.c lines 538-602); `be` models
the machine endianness. -/
def template_span_with_color_3_da (be : Bool) (dp mp : List Nat) (n w : Nat)
    (color : List Nat) (da : Nat) : List Nat :=
  let rgba0 := load32 be (color.getD 0 0) (color.getD 1 0) (color.getD 2 0)
    (color.getD 3 0)
  let sa := fz_expand (color.getD 3 0)
  if sa = 0 then dp
  else
    let rgba := if be then rgba0 ||| 0x000000FF else rgba0 ||| 0xFF000000
    let mask : Nat := 0xFF00FF00
    let rb := rgba &&& (mask >>> 8)
    let ga := (rgba &&& mask) >>> 8
    if sa = 256 then spanColor3daFull be mask rgba rb ga w mp dp
    else spanColor3daPart be mask rb ga sa w mp dp

/-- The `sa == 256` loop of `template_span_with_color_4_da` (lines 613-641). -/
def spanColor4daFull (c m y k : Nat) : Nat → List Nat → List Nat → List Nat
  | 0, _, dp => dp
  | w + 1, mp, dp =>
      let ma := fz_expand (mp.headD 0)
      (if ma = 0 then dp.take 5
       else if ma = 256 then [c, m, y, k, 255]
       else [blendB c (dp.getD 0 0) ma, blendB m (dp.getD 1 0) ma,
             blendB y (dp.getD 2 0) ma, blendB k (dp.getD 3 0) ma,
             blendB 255 (dp.getD 4 0) ma]) ++
        spanColor4daFull c m y k w mp.tail (dp.drop 5)

/-- The `sa != 256` loop of `template_span_with_color_4_da` (lines 643-663). -/
def spanColor4daPart (c m y k sa : Nat) : Nat → List Nat → List Nat → List Nat
  | 0, _, dp => dp
  | w + 1, mp, dp =>
      let ma := fz_expand (mp.headD 0)
      (if ma = 0 then dp.take 5
       else
        let ma' := fz_combine ma sa
        [blendB c (dp.getD 0 0) ma', blendB m (dp.getD 1 0) ma',
         blendB y (dp.getD 2 0) ma', blendB k (dp.getD 3 0) ma',
         blendB 255 (dp.getD 4 0) ma']) ++
        spanColor4daPart c m y k sa w mp.tail (dp.drop 5)

/-- `template_span_with_color_4_da` (draw-paint.c lines 604-664). -/
def template_span_with_color_4_da (dp mp : List Nat) (n w : Nat)
    (color : List Nat) (da : Nat) : List Nat :=
  let sa := fz_expand (color.getD 4 0)
  if sa = 256 then
    spanColor4daFull (color.getD 0 0) (color.getD 1 0) (color.getD 2 0)
      (color.getD 3 0) w mp dp
  else
    spanColor4daPart (color.getD 0 0) (color.getD 1 0) (color.getD 2 0)
      (color.getD 3 0) sa w mp dp

/-- One pixel of the `ma == 256` overwrite of
`template_span_with_color_N_general` (lines 683-695). -/
def spanColorNFullPixel (n1 da : Nat) (color : List Nat) : List Nat :=
  (List.range n1).map (fun k => color.getD k 0) ++ (if da ≠ 0 then [255] else [])

/-- One pixel of the partial blend of `template_span_with_color_N_general`
(lines 696-702 and 713-716). -/
def spanColorNBlendPixel (n1 da ma : Nat) (color : List Nat) (dp : List Nat) :
    List Nat :=
  (List.range n1).map (fun k => blendB (color.getD k 0) (dp.getD k 0) ma) ++
    (if da ≠ 0 then [blendB 255 (dp.getD n1 0) ma] else [])

/-- The `sa == 256` loop of `template_span_with_color_N_general`
(lines 674-706). -/
def spanColorNFull (n n1 da : Nat) (color : List Nat) :
    Nat → List Nat → List Nat → List Nat
  | 0, _, dp => dp
  | w + 1, mp, dp =>
      let ma := fz_expand (mp.headD 0)
      (if ma = 0 then dp.take n
       else if ma = 256 then spanColorNFullPixel n1 da color
       else spanColorNBlendPixel n1 da ma color dp) ++
        spanColorNFull n n1 da color w mp.tail (dp.drop n)

/-- The `sa != 256` loop of `template_span_with_color_N_general`
(lines 708-720); note there is no skip on a zero combined weight. -/
def spanColorNPart (n n1 da sa : Nat) (color : List Nat) :
    Nat → List Nat → List Nat → List Nat
  | 0, _, dp => dp
  | w + 1, mp, dp =>
      let ma := fz_combine (fz_expand (mp.headD 0)) sa
      spanColorNBlendPixel n1 da ma color dp ++
        spanColorNPart n n1 da sa color w mp.tail (dp.drop n)

/-- `template_span_with_color_N_general` (draw-paint.c lines 666-721). -/
def template_span_with_color_N_general (dp mp : List Nat) (n w : Nat)
    (color : List Nat) (da : Nat) : List Nat :=
  let n1 := n - da
  let sa := fz_expand (color.getD n1 0)
  if sa = 0 then dp
  else if sa = 256 then spanColorNFull n n1 da color w mp dp
  else spanColorNPart n n1 da sa color w mp dp

/-- The type of `fz_span_color_painter_t`: `dp`, `mp`, `n`, `w`, color, `da`. -/
def SpanColorKernel : Type :=
  List Nat → List Nat → Nat → Nat → List Nat → Nat → List Nat

/-- `paint_span_with_color_0_da` (lines 723-728). -/
def paint_span_with_color_0_da : SpanColorKernel := fun dp mp _n w color _da =>
  template_span_with_color_N_general dp mp 1 w color 1

/-- `paint_span_with_color_1` (lines 730-735). -/
def paint_span_with_color_1 : SpanColorKernel := fun dp mp _n w color _da =>
  template_span_with_color_N_general dp mp 1 w color 0

/-- `paint_span_with_color_1_da` (lines 737-742). -/
def paint_span_with_color_1_da : SpanColorKernel := fun dp mp _n w color _da =>
  template_span_with_color_1_da dp mp 2 w color 1

/-- `paint_span_with_color_3` (lines 745-750). -/
def paint_span_with_color_3 : SpanColorKernel := fun dp mp _n w color _da =>
  template_span_with_color_N_general dp mp 3 w color 0

/-- `paint_span_with_color_3_da` (lines 752-757); model machine little-endian. -/
def paint_span_with_color_3_da : SpanColorKernel := fun dp mp _n w color _da =>
  template_span_with_color_3_da false dp mp 4 w color 1

/-- `paint_span_with_color_4` (lines 761-766). -/
def paint_span_with_color_4 : SpanColorKernel := fun dp mp _n w color _da =>
  template_span_with_color_N_general dp mp 4 w color 0

/-- `paint_span_with_color_4_da` (lines 768-773). -/
def paint_span_with_color_4_da : SpanColorKernel := fun dp mp _n w color _da =>
  template_span_with_color_4_da dp mp 5 w color 1

/-- `paint_span_with_color_N` (lines 777-782). -/
def paint_span_with_color_N : SpanColorKernel := fun dp mp n w color _da =>
  template_span_with_color_N_general dp mp n w color 0

/-- `paint_span_with_color_N_da` (lines 784-789). -/
def paint_span_with_color_N_da : SpanColorKernel := fun dp mp n w color _da =>
  template_span_with_color_N_general dp mp n w color 1

/-- `fz_get_span_color_painter` (draw-paint.c lines 792-811); the switch
scrutinee `n - da` is a C `int`. -/
def fz_get_span_color_painter (n da : Nat) (color : List Nat) :
    Option SpanColorKernel :=
  if (n : Int) - da = 0 then
    if da ≠ 0 then some paint_span_with_color_0_da else none
  else if (n : Int) - da = 1 then
    if da ≠ 0 then some paint_span_with_color_1_da else some paint_span_with_color_1
  else if (n : Int) - da = 3 then
    if da ≠ 0 then some paint_span_with_color_3_da else some paint_span_with_color_3
  else if (n : Int) - da = 4 then
    if da ≠ 0 then some paint_span_with_color_4_da else some paint_span_with_color_4
  else
    if da ≠ 0 then some paint_span_with_color_N_da else some paint_span_with_color_N

/- ------------------------------------------------------------------
Span-with-mask kernels (draw-paint.c lines 816-1364).
The templates `template_span_with_mask_{3,4,N}_general` perform the same
per-pixel byte writes and pointer advances with the channel count fixed at 3,
4 or generic `n` (the `da && sa` word copy of the 3-channel template, line
904, copies the same four bytes the generic loop copies), so they share the
per-pixel helper below.  The 1-channel template differs in one corner — in its
full-coverage copy branch (lines 834-836) the source advances past the alpha
byte only when `da` is also set — and gets its own loop. -/

/-- The writes of one pixel of a span-with-mask template when the expanded mask
weight `ma` is non-zero (lines 829-878 instantiated at channel count `n`). -/
def maskPixel (n da sa : Nat) (sp dp : List Nat) (ma : Nat) : List Nat :=
  if ma = 256 then
    let masa0 := if sa ≠ 0 then 255 - sp.getD n 0 else 0
    if masa0 = 0 then
      (List.range n).map (fun k => sp.getD k 0) ++
        (if da ≠ 0 then [if sa ≠ 0 then sp.getD n 0 else 255] else [])
    else
      let masa := fz_expand masa0
      (List.range n).map
          (fun k => bstoreN (sp.getD k 0 + fz_combine (dp.getD k 0) masa)) ++
        (if da ≠ 0 then
          [bstoreN ((if sa ≠ 0 then sp.getD n 0 else 255) +
            fz_combine (dp.getD n 0) masa)]
         else [])
  else
    if sa ≠ 0 then
      let masa := fz_expand (255 - fz_combine (sp.getD n 0) ma)
      (List.range n).map
          (fun k => bstoreN (fz_combine2 (sp.getD k 0) ma (dp.getD k 0) masa)) ++
        (if da ≠ 0 then
          [bstoreN (fz_combine2 (sp.getD n 0) ma (dp.getD n 0) masa)]
         else [])
    else
      (List.range n).map (fun k => blendB (sp.getD k 0) (dp.getD k 0) ma) ++
        (if da ≠ 0 then [blendB 255 (dp.getD n 0) ma] else [])

/-- The per-pixel loop shared by the span-with-mask templates: `ma == 0` skips
the pixel (pointer advance only), otherwise `maskPixel` writes it. -/
def maskLoop (n da sa : Nat) : Nat → List Nat → List Nat → List Nat → List Nat
  | 0, dp, _, _ => dp
  | w + 1, dp, sp, mp =>
      let ma := fz_expand (mp.headD 0)
      (if ma = 0 then dp.take (n + da) else maskPixel n da sa sp dp ma) ++
        maskLoop n da sa w (dp.drop (n + da)) (sp.drop (n + sa)) mp.tail

/-- The per-pixel loop of `template_span_with_mask_1_general` (draw-paint.c
lines 819-880).  In the `ma == 256 / masa == 0` copy branch the source pointer
advances past the alpha byte only when `da` is set: the `*sp++` of line 836 is
guarded by `if (da)` and, unlike the 3/4/N templates, no trailing
`if (sa) sp++` follows — so with `da = 0` and `sa = 1` the next pixel reads
the previous pixel's alpha byte as its gray sample.  Every other branch
advances the source by `1 + sa` as the other templates do. -/
def maskLoop1 (da sa : Nat) : Nat → List Nat → List Nat → List Nat → List Nat
  | 0, dp, _, _ => dp
  | w + 1, dp, sp, mp =>
      let ma := fz_expand (mp.headD 0)
      if ma = 0 then
        dp.take (1 + da) ++
          maskLoop1 da sa w (dp.drop (1 + da)) (sp.drop (1 + sa)) mp.tail
      else if ma = 256 then
        let masa0 := if sa ≠ 0 then 255 - sp.getD 1 0 else 0
        if masa0 = 0 then
          (sp.getD 0 0 ::
              (if da ≠ 0 then [if sa ≠ 0 then sp.getD 1 0 else 255] else [])) ++
            maskLoop1 da sa w (dp.drop (1 + da))
              (sp.drop (1 + (if da ≠ 0 ∧ sa ≠ 0 then 1 else 0))) mp.tail
        else
          let masa := fz_expand masa0
          (bstoreN (sp.getD 0 0 + fz_combine (dp.getD 0 0) masa) ::
              (if da ≠ 0 then
                [bstoreN ((if sa ≠ 0 then sp.getD 1 0 else 255) +
                  fz_combine (dp.getD 1 0) masa)]
               else [])) ++
            maskLoop1 da sa w (dp.drop (1 + da)) (sp.drop (1 + sa)) mp.tail
      else
        (if sa ≠ 0 then
          let masa := fz_expand (255 - fz_combine (sp.getD 1 0) ma)
          bstoreN (fz_combine2 (sp.getD 0 0) ma (dp.getD 0 0) masa) ::
            (if da ≠ 0 then
              [bstoreN (fz_combine2 (sp.getD 1 0) ma (dp.getD 1 0) masa)]
             else [])
        else
          blendB (sp.getD 0 0) (dp.getD 0 0) ma ::
            (if da ≠ 0 then [blendB 255 (dp.getD 1 0) ma] else [])) ++
          maskLoop1 da sa w (dp.drop (1 + da)) (sp.drop (1 + sa)) mp.tail

/-- `template_span_with_mask_1_general` (draw-paint.c lines 816-881). -/
def template_span_with_mask_1_general (dp : List Nat) (da : Nat) (sp : List Nat)
    (sa : Nat) (mp : List Nat) (w : Nat) : List Nat :=
  maskLoop1 da sa w dp sp mp

/-- `template_span_with_mask_3_general` (draw-paint.c lines 884-974). -/
def template_span_with_mask_3_general (dp : List Nat) (da : Nat) (sp : List Nat)
    (sa : Nat) (mp : List Nat) (w : Nat) : List Nat :=
  maskLoop 3 da sa w dp sp mp

/-- `template_span_with_mask_4_general` (draw-paint.c lines 977-1065). -/
def template_span_with_mask_4_general (dp : List Nat) (da : Nat) (sp : List Nat)
    (sa : Nat) (mp : List Nat) (w : Nat) : List Nat :=
  maskLoop 4 da sa w dp sp mp

/-- `template_span_with_mask_N_general` (draw-paint.c lines 1067-1148). -/
def template_span_with_mask_N_general (dp : List Nat) (da : Nat) (sp : List Nat)
    (sa : Nat) (mp : List Nat) (n w : Nat) : List Nat :=
  maskLoop n da sa w dp sp mp

/-- The type of `fz_span_mask_painter_t`: `dp`, `da`, `sp`, `sa`, `mp`, `n`,
`w`. -/
def SpanMaskKernel : Type :=
  List Nat → Nat → List Nat → Nat → List Nat → Nat → Nat → List Nat

/-- `paint_span_with_mask_0_da_sa` (lines 1150-1155). -/
def paint_span_with_mask_0_da_sa : SpanMaskKernel := fun dp _da sp _sa mp _n w =>
  template_span_with_mask_N_general dp 1 sp 1 mp 0 w

/-- `paint_span_with_mask_0_da` (lines 1157-1162). -/
def paint_span_with_mask_0_da : SpanMaskKernel := fun dp _da sp _sa mp _n w =>
  template_span_with_mask_N_general dp 1 sp 0 mp 0 w

/-- `paint_span_with_mask_1_da_sa` (lines 1164-1169). -/
def paint_span_with_mask_1_da_sa : SpanMaskKernel := fun dp _da sp _sa mp _n w =>
  template_span_with_mask_1_general dp 1 sp 1 mp w

/-- `paint_span_with_mask_1` (lines 1171-1176). -/
def paint_span_with_mask_1 : SpanMaskKernel := fun dp _da sp _sa mp _n w =>
  template_span_with_mask_1_general dp 0 sp 0 mp w

/-- `paint_span_with_mask_1_da` (lines 1179-1184). -/
def paint_span_with_mask_1_da : SpanMaskKernel := fun dp _da sp _sa mp _n w =>
  template_span_with_mask_1_general dp 1 sp 0 mp w

/-- `paint_span_with_mask_1_sa` (lines 1186-1191). -/
def paint_span_with_mask_1_sa : SpanMaskKernel := fun dp _da sp _sa mp _n w =>
  template_span_with_mask_1_general dp 0 sp 1 mp w

/-- `paint_span_with_mask_3_da_sa` (lines 1195-1200). -/
def paint_span_with_mask_3_da_sa : SpanMaskKernel := fun dp _da sp _sa mp _n w =>
  template_span_with_mask_3_general dp 1 sp 1 mp w

/-- `paint_span_with_mask_3_da` (lines 1202-1207). -/
def paint_span_with_mask_3_da : SpanMaskKernel := fun dp _da sp _sa mp _n w =>
  template_span_with_mask_3_general dp 1 sp 0 mp w

/-- `paint_span_with_mask_3_sa` (lines 1209-1214). -/
def paint_span_with_mask_3_sa : SpanMaskKernel := fun dp _da sp _sa mp _n w =>
  template_span_with_mask_3_general dp 0 sp 1 mp w

/-- `paint_span_with_mask_3` (lines 1216-1221). -/
def paint_span_with_mask_3 : SpanMaskKernel := fun dp _da sp _sa mp _n w =>
  template_span_with_mask_3_general dp 0 sp 0 mp w

/-- `paint_span_with_mask_4_da_sa` (lines 1225-1230). -/
def paint_span_with_mask_4_da_sa : SpanMaskKernel := fun dp _da sp _sa mp _n w =>
  template_span_with_mask_4_general dp 1 sp 1 mp w

/-- `paint_span_with_mask_4_da` (lines 1232-1237). -/
def paint_span_with_mask_4_da : SpanMaskKernel := fun dp _da sp _sa mp _n w =>
  template_span_with_mask_4_general dp 1 sp 0 mp w

/-- `paint_span_with_mask_4_sa` (lines 1239-1244). -/
def paint_span_with_mask_4_sa : SpanMaskKernel := fun dp _da sp _sa mp _n w =>
  template_span_with_mask_4_general dp 0 sp 1 mp w

/-- `paint_span_with_mask_4` (lines 1246-1251). -/
def paint_span_with_mask_4 : SpanMaskKernel := fun dp _da sp _sa mp _n w =>
  template_span_with_mask_4_general dp 0 sp 0 mp w

/-- `paint_span_with_mask_N_da_sa` (lines 1255-1260). -/
def paint_span_with_mask_N_da_sa : SpanMaskKernel := fun dp _da sp _sa mp n w =>
  template_span_with_mask_N_general dp 1 sp 1 mp n w

/-- `paint_span_with_mask_N_da` (lines 1262-1267). -/
def paint_span_with_mask_N_da : SpanMaskKernel := fun dp _da sp _sa mp n w =>
  template_span_with_mask_N_general dp 1 sp 0 mp n w

/-- `paint_span_with_mask_N_sa` (lines 1269-1274). -/
def paint_span_with_mask_N_sa : SpanMaskKernel := fun dp _da sp _sa mp n w =>
  template_span_with_mask_N_general dp 0 sp 1 mp n w

/-- `paint_span_with_mask_N` (lines 1276-1281). -/
def paint_span_with_mask_N : SpanMaskKernel := fun dp _da sp _sa mp n w =>
  template_span_with_mask_N_general dp 0 sp 0 mp n w

/-- `fz_get_span_mask_painter` (draw-paint.c lines 1286-1364). -/
def fz_get_span_mask_painter (da sa n : Nat) : Option SpanMaskKernel :=
  if n = 0 then
    if da = 0 then none
    else if sa ≠ 0 then some paint_span_with_mask_0_da_sa
    else some paint_span_with_mask_0_da
  else if n = 1 then
    if da ≠ 0 then
      if sa ≠ 0 then some paint_span_with_mask_1_da_sa
      else some paint_span_with_mask_1_da
    else
      if sa ≠ 0 then some paint_span_with_mask_1_sa
      else some paint_span_with_mask_1
  else if n = 3 then
    if da ≠ 0 then
      if sa ≠ 0 then some paint_span_with_mask_3_da_sa
      else some paint_span_with_mask_3_da
    else
      if sa ≠ 0 then some paint_span_with_mask_3_sa
      else some paint_span_with_mask_3
  else if n = 4 then
    if da ≠ 0 then
      if sa ≠ 0 then some paint_span_with_mask_4_da_sa
      else some paint_span_with_mask_4_da
    else
      if sa ≠ 0 then some paint_span_with_mask_4_sa
      else some paint_span_with_mask_4
  else
    if da ≠ 0 then
      if sa ≠ 0 then some paint_span_with_mask_N_da_sa
      else some paint_span_with_mask_N_da
    else
      if sa ≠ 0 then some paint_span_with_mask_N_sa
      else some paint_span_with_mask_N

/- ------------------------------------------------------------------
Span-over kernels (draw-paint.c lines 1368-2067).
`template_span_{1,3,4,N}_general` and `template_span_{1,3,4,N}_with_alpha_general`
again perform identical per-pixel byte writes with the channel count fixed
(the `da && sa` word copy of the 3-channel template, line 1524, copies the same
four bytes), so they share the per-pixel loops below.
------------------------------------------------------------------- -/

/-- The per-pixel loop of the plain span-over templates (lines 1470-1506
instantiated at channel count `n1`): skip when the expanded source alpha is 0,
raw copy when it is 256, else `dst = src + combine(dst, 256 - t)`. -/
def spanLoop (n1 da sa : Nat) : Nat → List Nat → List Nat → List Nat
  | 0, dp, _ => dp
  | w + 1, dp, sp =>
      let t := if sa ≠ 0 then fz_expand (sp.getD n1 0) else 256
      (if t = 0 then dp.take (n1 + da)
       else
        let t' := 256 - t
        if t' = 0 then
          (List.range n1).map (fun k => sp.getD k 0) ++
            (if da ≠ 0 then [if sa ≠ 0 then sp.getD n1 0 else 255] else [])
        else
          (List.range n1).map
              (fun k => bstoreN (sp.getD k 0 + fz_combine (dp.getD k 0) t')) ++
            (if da ≠ 0 then
              [if sa ≠ 0 then bstoreN (sp.getD n1 0 + fz_combine (dp.getD n1 0) t')
               else 255]
             else [])) ++
        spanLoop n1 da sa w (dp.drop (n1 + da)) (sp.drop (n1 + sa))

/-- `template_span_1_general` (draw-paint.c lines 1470-1506). -/
def template_span_1_general (dp : List Nat) (da : Nat) (sp : List Nat)
    (sa : Nat) (w : Nat) : List Nat :=
  spanLoop 1 da sa w dp sp

/-- `template_span_3_general` (draw-paint.c lines 1508-1554). -/
def template_span_3_general (dp : List Nat) (da : Nat) (sp : List Nat)
    (sa : Nat) (w : Nat) : List Nat :=
  spanLoop 3 da sa w dp sp

/-- `template_span_4_general` (draw-paint.c lines 1556-1600). -/
def template_span_4_general (dp : List Nat) (da : Nat) (sp : List Nat)
    (sa : Nat) (w : Nat) : List Nat :=
  spanLoop 4 da sa w dp sp

/-- `template_span_N_general` (draw-paint.c lines 1603-1647). -/
def template_span_N_general (dp : List Nat) (da : Nat) (sp : List Nat)
    (sa : Nat) (n1 w : Nat) : List Nat :=
  spanLoop n1 da sa w dp sp

/-- The per-pixel loop of the span-over-with-constant-alpha templates
(lines 1442-1465 instantiated at channel count `n1`); `alpha` has already been
expanded when `sa` is set. -/
def spanAlphaLoop (n1 da sa alpha : Nat) : Nat → List Nat → List Nat → List Nat
  | 0, dp, _ => dp
  | w + 1, dp, sp =>
      let masa := if sa ≠ 0 then fz_combine (sp.getD n1 0) alpha else alpha
      ((List.range n1).map (fun k => blendB (sp.getD k 0) (dp.getD k 0) masa) ++
        (if da ≠ 0 then
          [blendB (if sa ≠ 0 then sp.getD n1 0 else 255) (dp.getD n1 0) masa]
         else [])) ++
        spanAlphaLoop n1 da sa alpha w (dp.drop (n1 + da)) (sp.drop (n1 + sa))

/-- `template_span_1_with_alpha_general` (draw-paint.c lines 1368-1387). -/
def template_span_1_with_alpha_general (dp : List Nat) (da : Nat)
    (sp : List Nat) (sa : Nat) (w alpha : Nat) : List Nat :=
  spanAlphaLoop 1 da sa (if sa ≠ 0 then fz_expand alpha else alpha) w dp sp

/-- `template_span_3_with_alpha_general` (draw-paint.c lines 1389-1412). -/
def template_span_3_with_alpha_general (dp : List Nat) (da : Nat)
    (sp : List Nat) (sa : Nat) (w alpha : Nat) : List Nat :=
  spanAlphaLoop 3 da sa (if sa ≠ 0 then fz_expand alpha else alpha) w dp sp

/-- `template_span_4_with_alpha_general` (draw-paint.c lines 1414-1439). -/
def template_span_4_with_alpha_general (dp : List Nat) (da : Nat)
    (sp : List Nat) (sa : Nat) (w alpha : Nat) : List Nat :=
  spanAlphaLoop 4 da sa (if sa ≠ 0 then fz_expand alpha else alpha) w dp sp

/-- `template_span_N_with_alpha_general` (draw-paint.c lines 1442-1465). -/
def template_span_N_with_alpha_general (dp : List Nat) (da : Nat)
    (sp : List Nat) (sa : Nat) (n1 w alpha : Nat) : List Nat :=
  spanAlphaLoop n1 da sa (if sa ≠ 0 then fz_expand alpha else alpha) w dp sp

/-- The type of `fz_span_painter_t`: `dp`, `da`, `sp`, `sa`, `n`, `w`,
`alpha`. -/
def SpanKernel : Type :=
  List Nat → Nat → List Nat → Nat → Nat → Nat → Nat → List Nat

/-- The loop of `paint_span_0_da_sa` (lines 1650-1662): per pixel
`t = expand(255 - s)` and `dst = s + combine(dst, t)`. -/
def span0Loop : Nat → List Nat → List Nat → List Nat
  | 0, dp, _ => dp
  | w + 1, dp, sp =>
      let s := sp.headD 0
      let t := fz_expand (255 - s)
      bstoreN (s + fz_combine (dp.headD 0) t) :: span0Loop w (dp.drop 1) (sp.drop 1)

/-- `paint_span_0_da_sa` (draw-paint.c lines 1650-1662). -/
def paint_span_0_da_sa : SpanKernel := fun dp _da sp _sa _n w _alpha =>
  span0Loop w dp sp

/-- The loop of `paint_span_0_da_sa_alpha` (lines 1664-1677): per pixel
`masa = combine(s, expand(alpha))` and a blend. -/
def span0AlphaLoop (alpha : Nat) : Nat → List Nat → List Nat → List Nat
  | 0, dp, _ => dp
  | w + 1, dp, sp =>
      let masa := fz_combine (sp.headD 0) alpha
      blendB (sp.headD 0) (dp.headD 0) masa ::
        span0AlphaLoop alpha w (dp.drop 1) (sp.drop 1)

/-- `paint_span_0_da_sa_alpha` (draw-paint.c lines 1664-1677). -/
def paint_span_0_da_sa_alpha : SpanKernel := fun dp _da sp _sa _n w alpha =>
  span0AlphaLoop (fz_expand alpha) w dp sp

/-- `paint_span_1_sa` (lines 1679-1684). -/
def paint_span_1_sa : SpanKernel := fun dp _da sp _sa _n w _alpha =>
  template_span_1_general dp 0 sp 1 w

/-- `paint_span_1_sa_alpha` (lines 1686-1691). -/
def paint_span_1_sa_alpha : SpanKernel := fun dp _da sp _sa _n w alpha =>
  template_span_1_with_alpha_general dp 0 sp 1 w alpha

/-- `paint_span_1_da_sa` (lines 1693-1698). -/
def paint_span_1_da_sa : SpanKernel := fun dp _da sp _sa _n w _alpha =>
  template_span_1_general dp 1 sp 1 w

/-- `paint_span_1_da_sa_alpha` (lines 1700-1705). -/
def paint_span_1_da_sa_alpha : SpanKernel := fun dp _da sp _sa _n w alpha =>
  template_span_1_with_alpha_general dp 1 sp 1 w alpha

/-- `paint_span_1_da` (lines 1708-1713). -/
def paint_span_1_da : SpanKernel := fun dp _da sp _sa _n w _alpha =>
  template_span_1_general dp 1 sp 0 w

/-- `paint_span_1_da_alpha` (lines 1715-1720). -/
def paint_span_1_da_alpha : SpanKernel := fun dp _da sp _sa _n w alpha =>
  template_span_1_with_alpha_general dp 1 sp 0 w alpha

/-- `paint_span_1` (lines 1722-1727). -/
def paint_span_1 : SpanKernel := fun dp _da sp _sa _n w _alpha =>
  template_span_1_general dp 0 sp 0 w

/-- `paint_span_1_alpha` (lines 1729-1734). -/
def paint_span_1_alpha : SpanKernel := fun dp _da sp _sa _n w alpha =>
  template_span_1_with_alpha_general dp 0 sp 0 w alpha

/-- `paint_span_3_da_sa` (lines 1738-1743). -/
def paint_span_3_da_sa : SpanKernel := fun dp _da sp _sa _n w _alpha =>
  template_span_3_general dp 1 sp 1 w

/-- `paint_span_3_da_sa_alpha` (lines 1745-1750). -/
def paint_span_3_da_sa_alpha : SpanKernel := fun dp _da sp _sa _n w alpha =>
  template_span_3_with_alpha_general dp 1 sp 1 w alpha

/-- `paint_span_3_da` (lines 1752-1757). -/
def paint_span_3_da : SpanKernel := fun dp _da sp _sa _n w _alpha =>
  template_span_3_general dp 1 sp 0 w

/-- `paint_span_3_da_alpha` (lines 1759-1764). -/
def paint_span_3_da_alpha : SpanKernel := fun dp _da sp _sa _n w alpha =>
  template_span_3_with_alpha_general dp 1 sp 0 w alpha

/-- `paint_span_3_sa` (lines 1766-1771). -/
def paint_span_3_sa : SpanKernel := fun dp _da sp _sa _n w _alpha =>
  template_span_3_general dp 0 sp 1 w

/-- `paint_span_3_sa_alpha` (lines 1773-1778). -/
def paint_span_3_sa_alpha : SpanKernel := fun dp _da sp _sa _n w alpha =>
  template_span_3_with_alpha_general dp 0 sp 1 w alpha

/-- `paint_span_3` (lines 1780-1785). -/
def paint_span_3 : SpanKernel := fun dp _da sp _sa _n w _alpha =>
  template_span_3_general dp 0 sp 0 w

/-- `paint_span_3_alpha` (lines 1787-1792). -/
def paint_span_3_alpha : SpanKernel := fun dp _da sp _sa _n w alpha =>
  template_span_3_with_alpha_general dp 0 sp 0 w alpha

/-- `paint_span_4_da_sa` (lines 1796-1801). -/
def paint_span_4_da_sa : SpanKernel := fun dp _da sp _sa _n w _alpha =>
  template_span_4_general dp 1 sp 1 w

/-- `paint_span_4_da_sa_alpha` (lines 1803-1808). -/
def paint_span_4_da_sa_alpha : SpanKernel := fun dp _da sp _sa _n w alpha =>
  template_span_4_with_alpha_general dp 1 sp 1 w alpha

/-- `paint_span_4_da` (lines 1810-1815). -/
def paint_span_4_da : SpanKernel := fun dp _da sp _sa _n w _alpha =>
  template_span_4_general dp 1 sp 0 w

/-- `paint_span_4_da_alpha` (lines 1817-1822). -/
def paint_span_4_da_alpha : SpanKernel := fun dp _da sp _sa _n w alpha =>
  template_span_4_with_alpha_general dp 1 sp 0 w alpha

/-- `paint_span_4_sa` (lines 1824-1829). -/
def paint_span_4_sa : SpanKernel := fun dp _da sp _sa _n w _alpha =>
  template_span_4_general dp 0 sp 1 w

/-- `paint_span_4_sa_alpha` (lines 1831-1836). -/
def paint_span_4_sa_alpha : SpanKernel := fun dp _da sp _sa _n w alpha =>
  template_span_4_with_alpha_general dp 0 sp 1 w alpha

/-- `paint_span_4` (lines 1838-1843). -/
def paint_span_4 : SpanKernel := fun dp _da sp _sa _n w _alpha =>
  template_span_4_general dp 0 sp 0 w

/-- `paint_span_4_alpha` (lines 1845-1850). -/
def paint_span_4_alpha : SpanKernel := fun dp _da sp _sa _n w alpha =>
  template_span_4_with_alpha_general dp 0 sp 0 w alpha

/-- `paint_span_N_da_sa` (lines 1854-1859). -/
def paint_span_N_da_sa : SpanKernel := fun dp _da sp _sa n w _alpha =>
  template_span_N_general dp 1 sp 1 n w

/-- `paint_span_N_da_sa_alpha` (lines 1861-1866). -/
def paint_span_N_da_sa_alpha : SpanKernel := fun dp _da sp _sa n w alpha =>
  template_span_N_with_alpha_general dp 1 sp 1 n w alpha

/-- `paint_span_N_da` (lines 1868-1873). -/
def paint_span_N_da : SpanKernel := fun dp _da sp _sa n w _alpha =>
  template_span_N_general dp 1 sp 0 n w

/-- `paint_span_N_da_alpha` (lines 1875-1880). -/
def paint_span_N_da_alpha : SpanKernel := fun dp _da sp _sa n w alpha =>
  template_span_N_with_alpha_general dp 1 sp 0 n w alpha

/-- `paint_span_N_sa` (lines 1882-1887). -/
def paint_span_N_sa : SpanKernel := fun dp _da sp _sa n w _alpha =>
  template_span_N_general dp 0 sp 1 n w

/-- `paint_span_N_sa_alpha` (lines 1889-1894). -/
def paint_span_N_sa_alpha : SpanKernel := fun dp _da sp _sa n w alpha =>
  template_span_N_with_alpha_general dp 0 sp 1 n w alpha

/-- `paint_span_N` (lines 1896-1901). -/
def paint_span_N : SpanKernel := fun dp _da sp _sa n w _alpha =>
  template_span_N_general dp 0 sp 0 n w

/-- `paint_span_N_alpha` (lines 1903-1908). -/
def paint_span_N_alpha : SpanKernel := fun dp _da sp _sa n w alpha =>
  template_span_N_with_alpha_general dp 0 sp 0 n w alpha

/-- `fz_get_span_painter` (draw-paint.c lines 1911-2067). -/
def fz_get_span_painter (da sa n alpha : Nat) : Option SpanKernel :=
  if n = 0 then
    if alpha = 255 then some paint_span_0_da_sa
    else if 0 < alpha then some paint_span_0_da_sa_alpha
    else none
  else if n = 1 then
    if sa ≠ 0 then
      if da ≠ 0 then
        if alpha = 255 then some paint_span_1_da_sa
        else if 0 < alpha then some paint_span_1_da_sa_alpha
        else none
      else
        if alpha = 255 then some paint_span_1_sa
        else if 0 < alpha then some paint_span_1_sa_alpha
        else none
    else
      if da ≠ 0 then
        if alpha = 255 then some paint_span_1_da
        else if 0 < alpha then some paint_span_1_da_alpha
        else none
      else
        if alpha = 255 then some paint_span_1
        else if 0 < alpha then some paint_span_1_alpha
        else none
  else if n = 3 then
    if da ≠ 0 then
      if sa ≠ 0 then
        if alpha = 255 then some paint_span_3_da_sa
        else if 0 < alpha then some paint_span_3_da_sa_alpha
        else none
      else
        if alpha = 255 then some paint_span_3_da
        else if 0 < alpha then some paint_span_3_da_alpha
        else none
    else
      if sa ≠ 0 then
        if alpha = 255 then some paint_span_3_sa
        else if 0 < alpha then some paint_span_3_sa_alpha
        else none
      else
        if alpha = 255 then some paint_span_3
        else if 0 < alpha then some paint_span_3_alpha
        else none
  else if n = 4 then
    if da ≠ 0 then
      if sa ≠ 0 then
        if alpha = 255 then some paint_span_4_da_sa
        else if 0 < alpha then some paint_span_4_da_sa_alpha
        else none
      else
        if alpha = 255 then some paint_span_4_da
        else if 0 < alpha then some paint_span_4_da_alpha
        else none
    else
      if sa ≠ 0 then
        if alpha = 255 then some paint_span_4_sa
        else if 0 < alpha then some paint_span_4_sa_alpha
        else none
      else
        if alpha = 255 then some paint_span_4
        else if 0 < alpha then some paint_span_4_alpha
        else none
  else
    if da ≠ 0 then
      if sa ≠ 0 then
        if alpha = 255 then some paint_span_N_da_sa
        else if 0 < alpha then some paint_span_N_da_sa_alpha
        else none
      else
        if alpha = 255 then some paint_span_N_da
        else if 0 < alpha then some paint_span_N_da_alpha
        else none
    else
      if sa ≠ 0 then
        if alpha = 255 then some paint_span_N_sa
        else if 0 < alpha then some paint_span_N_sa_alpha
        else none
      else
        if alpha = 255 then some paint_span_N
        else if 0 < alpha then some paint_span_N_alpha
        else none

/- ------------------------------------------------------------------
Pixmap-level orchestration (draw-paint.c lines 2069-2203).
------------------------------------------------------------------- -/

/-- The pixmap record: device-space origin, extent, channel count (alpha
included), alpha flag (0/1), row stride, colorspace presence and the sample
bytes.  Buffers come from an external allocator; only the fields this core
reads are modelled. -/
structure FzPixmap where
  x : Int
  y : Int
  w : Nat
  h : Nat
  n : Nat
  alpha : Nat
  stride : Nat
  colorspace : Bool
  samples : List Nat

/-- An integer device-space rectangle. -/
structure IRect where
  x0 : Int
  y0 : Int
  x1 : Int
  y1 : Int

/-- Modelled from the spec: `fz_pixmap_bbox_no_ctx` (defined outside this
file): the pixmap's bounds in device space. -/
def fz_pixmap_bbox_no_ctx (p : FzPixmap) : IRect :=
  ⟨p.x, p.y, p.x + p.w, p.y + p.h⟩

/-- Modelled from the spec: `fz_intersect_irect` (defined outside this file):
componentwise rectangle intersection. -/
def fz_intersect_irect (a b : IRect) : IRect :=
  ⟨max a.x0 b.x0, max a.y0 b.y0, min a.x1 b.x1, min a.y1 b.y1⟩

/-- Apply an update to the suffix of a buffer starting at byte `off`
(pointer arithmetic into a sample buffer). -/
def writeAt (buf : List Nat) (off : Nat) (f : List Nat → List Nat) : List Nat :=
  buf.take off ++ f (buf.drop off)

/-- The row loop of `fz_paint_pixmap` / `fz_paint_pixmap_with_bbox`
(lines 2151-2156): apply the span painter to each row, advancing both sample
pointers by their strides. -/
def paintRows (fn : SpanKernel) (da sa n w alpha : Nat) (srcSamples : List Nat)
    (srcStride dstStride : Nat) : Nat → Nat → Nat → List Nat → List Nat
  | 0, _, _, dst => dst
  | h + 1, dpOff, spOff, dst =>
      paintRows fn da sa n w alpha srcSamples srcStride dstStride h
        (dpOff + dstStride) (spOff + srcStride)
        (writeAt dst dpOff (fun seg => fn seg da (srcSamples.drop spOff) sa n w alpha))

/-- `fz_paint_pixmap` (draw-paint.c lines 2116-2157).  The two `assert`s
(operand shape check, painter presence) are modelled as detectable failures. -/
def fz_paint_pixmap (dst src : FzPixmap) (alpha : Nat) : Except String FzPixmap :=
  if dst.n - dst.alpha ≠ src.n - src.alpha then
    .error "assert: dst->n - dst->alpha == src->n - src->alpha"
  else
    let bbox := fz_intersect_irect (fz_pixmap_bbox_no_ctx dst) (fz_pixmap_bbox_no_ctx src)
    let x := bbox.x0
    let y := bbox.y0
    let w := (bbox.x1 - bbox.x0).toNat
    let h := (bbox.y1 - bbox.y0).toNat
    if w = 0 ∨ h = 0 then .ok dst
    else
      let sa := src.alpha
      let da := dst.alpha
      let spOff := ((y - src.y) * src.stride + (x - src.x) * src.n).toNat
      let dpOff := ((y - dst.y) * dst.stride + (x - dst.x) * dst.n).toNat
      let n1 := src.n - sa
      match fz_get_span_painter da sa n1 alpha with
      | none => .error "assert: fn"
      | some fn =>
          .ok { dst with
                samples := paintRows fn da sa n1 w alpha src.samples src.stride
                  dst.stride h dpOff spOff dst.samples }

/-- The row loop of `fz_paint_pixmap_with_mask` (lines 2196-2202). -/
def maskRows (fn : SpanMaskKernel) (da sa n w : Nat)
    (srcSamples mskSamples : List Nat) (srcStride mskStride dstStride : Nat) :
    Nat → Nat → Nat → Nat → List Nat → List Nat
  | 0, _, _, _, dst => dst
  | h + 1, dpOff, spOff, mpOff, dst =>
      maskRows fn da sa n w srcSamples mskSamples srcStride mskStride dstStride h
        (dpOff + dstStride) (spOff + srcStride) (mpOff + mskStride)
        (writeAt dst dpOff
          (fun seg => fn seg da (srcSamples.drop spOff) sa (mskSamples.drop mpOff) n w))

/-- `fz_paint_pixmap_with_mask` (draw-paint.c lines 2159-2203).  The two
`assert`s are modelled as detectable failures; a missing painter returns the
destination unchanged (the C returns silently). -/
def fz_paint_pixmap_with_mask (dst src msk : FzPixmap) : Except String FzPixmap :=
  if dst.n ≠ src.n then .error "assert: dst->n == src->n"
  else if msk.n ≠ 1 then .error "assert: msk->n == 1"
  else
    let bbox := fz_intersect_irect
      (fz_intersect_irect (fz_pixmap_bbox_no_ctx dst) (fz_pixmap_bbox_no_ctx src))
      (fz_pixmap_bbox_no_ctx msk)
    let x := bbox.x0
    let y := bbox.y0
    let w := (bbox.x1 - bbox.x0).toNat
    let h := (bbox.y1 - bbox.y0).toNat
    if w = 0 ∨ h = 0 then .ok dst
    else
      let sa := src.alpha
      let da := dst.alpha
      let spOff := ((y - src.y) * src.stride + (x - src.x) * src.n).toNat
      let mpOff := ((y - msk.y) * msk.stride + (x - msk.x) * msk.n).toNat
      let dpOff := ((y - dst.y) * dst.stride + (x - dst.x) * dst.n).toNat
      let n1 := src.n - sa
      match fz_get_span_mask_painter da sa n1 with
      | none => .ok dst
      | some fn =>
          .ok { dst with
                samples := maskRows fn da sa n1 w src.samples msk.samples
                  src.stride msk.stride dst.stride h dpOff spOff mpOff dst.samples }

/- ------------------------------------------------------------------
Glyph run-length decode engine (draw-paint.c lines 2205-2513).
------------------------------------------------------------------- -/

/-- A run-encoded glyph: per-row offsets into the shared run-stream byte
array (negative offset: the row has no coverage), and the stream bytes.  The C
stores the offset table at the head of `glyph->data`; the table is modelled as
a separate list of ints indexing into `data`. -/
structure FzGlyph where
  w : Nat
  h : Nat
  offsets : List Int
  data : List Nat

/-- The emit loop of an Intermediate run in mask mode (draw-paint.c lines
2308-2323): per position, a zero destination byte takes the payload coverage
byte verbatim, a non-zero one is blended with `FZ_BLEND(0xFF, v, FZ_EXPAND(a))`.
Returns the written bytes followed by the untouched remainder of `dest`. -/
def intermediateEmit : Nat → List Nat → List Nat → List Nat
  | 0, _, dest => dest
  | len + 1, run, dest =>
      let a := run.headD 0
      let v := dest.headD 0
      (if v = 0 then a else bstore (fz_blend 255 v (fz_expand a))) ::
        intermediateEmit len run.tail dest.tail

/-- The emit phase of one mask-mode glyph row (the `while (ww > 0)` loop of
`fz_paint_glyph_mask`, draw-paint.c lines 2269-2328).  Arguments: structural
fuel (every loop iteration consumes at least the header byte, so any fuel
above the stream length is enough — callers pass `run.length + 1`), remaining
run stream, current `extend` accumulator, remaining width `ww`, and the
destination row suffix.  An end-of-line flag on a Solid/Intermediate run stops
the row after that run. -/
def glyphRowEmit : Nat → List Nat → Nat → Nat → List Nat → List Nat
  | 0, _, _, _, dest => dest
  | _ + 1, [], _, _, dest => dest
  | fuel + 1, v :: run, ext, ww, dest =>
      if ww = 0 then dest
      else if v &&& 3 = 0 then glyphRowEmit fuel run (v >>> 2) ww dest
      else if v &&& 3 = 1 then
        let len := min ((v >>> 2) + 1 + (ext <<< 6)) ww
        dest.take len ++ glyphRowEmit fuel run 0 (ww - len) (dest.drop len)
      else if v &&& 3 = 2 then
        let len := min ((v >>> 3) + 1 + (ext <<< 5)) ww
        List.replicate len 255 ++
          (if v &&& 4 ≠ 0 then dest.drop len
           else glyphRowEmit fuel run 0 (ww - len) (dest.drop len))
      else
        let len := min ((v >>> 3) + 1 + (ext <<< 5)) ww
        (intermediateEmit len run dest).take len ++
          (if v &&& 4 ≠ 0 then dest.drop len
           else glyphRowEmit fuel (run.drop len) 0 (ww - len) (dest.drop len))

/-- The skip phase of one mask-mode glyph row (the `while (skip_xx)` loop of
`fz_paint_glyph_mask`, draw-paint.c lines 2221-2268), followed by the emit
phase.  A run only partially consumed by the skip resumes mid-run in the emit
loop (the three `goto` targets); a fully consumed run carrying the end-of-line
flag terminates the row with nothing emitted.  The first argument is
structural fuel as in `glyphRowEmit`. -/
def glyphRowSkip : Nat → List Nat → Nat → Nat → Nat → List Nat → List Nat
  | 0, _, _, _, _, dest => dest
  | _ + 1, [], _, _, _, dest => dest
  | fuel + 1, v :: run, ext, skipx, ww, dest =>
      if skipx = 0 then glyphRowEmit (fuel + 1) (v :: run) ext ww dest
      else if v &&& 3 = 0 then glyphRowSkip fuel run (v >>> 2) skipx ww dest
      else if v &&& 3 = 1 then
        let len := (v >>> 2) + 1 + (ext <<< 6)
        if skipx < len then
          let l := min (len - skipx) ww
          dest.take l ++ glyphRowEmit fuel run 0 (ww - l) (dest.drop l)
        else glyphRowSkip fuel run 0 (skipx - len) ww dest
      else if v &&& 3 = 2 then
        let len := (v >>> 3) + 1 + (ext <<< 5)
        if skipx < len then
          let l := min (len - skipx) ww
          List.replicate l 255 ++
            (if v &&& 4 ≠ 0 then dest.drop l
             else glyphRowEmit fuel run 0 (ww - l) (dest.drop l))
        else if v &&& 4 ≠ 0 then dest
        else glyphRowSkip fuel run 0 (skipx - len) ww dest
      else
        let len := (v >>> 3) + 1 + (ext <<< 5)
        if skipx < len then
          let l := min (len - skipx) ww
          (intermediateEmit l (run.drop skipx) dest).take l ++
            (if v &&& 4 ≠ 0 then dest.drop l
             else glyphRowEmit fuel ((run.drop skipx).drop l) 0 (ww - l) (dest.drop l))
        else if v &&& 4 ≠ 0 then dest
        else glyphRowSkip fuel (run.drop len) 0 (skipx - len) ww dest

/-- `fz_paint_glyph_mask` (draw-paint.c lines 2205-2332): per glyph row, look
up the row's stream offset (negative: no coverage) and decode it into the
destination row; rows advance by `span` bytes. -/
def fz_paint_glyph_mask (span : Nat) :
    List Nat → Nat → FzGlyph → Nat → Nat → Nat → Nat → List Nat
  | dp, _da, _g, _w, 0, _sx, _sy => dp
  | dp, da, g, w, h + 1, sx, sy =>
      let offset := g.offsets.getD sy (-1)
      let row :=
        if 0 ≤ offset then
          let run := g.data.drop offset.toNat
          glyphRowSkip (run.length + 1) run 0 sx w (dp.take span)
        else dp.take span
      row ++ fz_paint_glyph_mask span (dp.drop span) da g w h sx (sy + 1)

/-- One pixel of the color-mode glyph compositors with effective weight `ma`:
skip, overwrite (with destination alpha forced to 255), or blend — the
span-with-solid-color pixel semantics of §4.2 applied at a glyph position. -/
def glyphColorPixel (n1 da ma : Nat) (color : List Nat) (pix : List Nat) : List Nat :=
  if ma = 0 then pix.take (n1 + da)
  else if ma = 256 then
    (List.range n1).map (fun k => color.getD k 0) ++ (if da ≠ 0 then [255] else [])
  else
    (List.range n1).map (fun k => blendB (color.getD k 0) (pix.getD k 0) ma) ++
      (if da ≠ 0 then [blendB 255 (pix.getD n1 0) ma] else [])

/-- Apply a decoded coverage row to a destination row of `n1 + da`-byte
pixels, weighting each coverage byte through `wt`. -/
def applyCoverage (wt : Nat → Nat) (n1 da : Nat) (color : List Nat) :
    List Nat → List Nat → List Nat
  | [], dest => dest
  | c :: cs, dest =>
      glyphColorPixel n1 da (wt c) color dest ++
        applyCoverage wt n1 da color cs (dest.drop (n1 + da))

/-- Modelled from the spec: the color-mode glyph row decoders of
`paint-glyph.h` (file not in src).  Per §4.5 the three decode modes share the
mask-mode run walk; a row's per-column coverage (0 for transparent or
truncated columns, 255 for solid, the payload byte for intermediate) is
obtained by decoding into an all-zero accumulator, then composited pixelwise
with the mode's weight function. -/
def glyphColorRow (wt : Nat → Nat) (n1 da : Nat) (color : List Nat)
    (run : List Nat) (skipx ww : Nat) (dest : List Nat) : List Nat :=
  applyCoverage wt n1 da color
    (glyphRowSkip (run.length + 1) run 0 skipx ww (List.replicate ww 0)) dest

/-- Modelled from the spec: `fz_paint_glyph_solid_*` of `paint-glyph.h` (file
not in src): solid mode weights each coverage byte by `expand` (color alpha is
255, so full coverage is a raw overwrite). -/
def fz_paint_glyph_solid (colorbv : List Nat) (n span : Nat) :
    List Nat → Nat → FzGlyph → Nat → Nat → Nat → Nat → List Nat
  | dp, _da, _g, _w, 0, _sx, _sy => dp
  | dp, da, g, w, h + 1, sx, sy =>
      let offset := g.offsets.getD sy (-1)
      let row :=
        if 0 ≤ offset then
          glyphColorRow fz_expand n da colorbv (g.data.drop offset.toNat) sx w
            (dp.take span)
        else dp.take span
      row ++ fz_paint_glyph_solid colorbv n span (dp.drop span) da g w h sx (sy + 1)

/-- Modelled from the spec: `fz_paint_glyph_alpha_*` of `paint-glyph.h` (file
not in src): alpha mode combines each expanded coverage byte with the color's
own expanded alpha before blending. -/
def fz_paint_glyph_alpha (colorbv : List Nat) (n span : Nat) :
    List Nat → Nat → FzGlyph → Nat → Nat → Nat → Nat → List Nat
  | dp, _da, _g, _w, 0, _sx, _sy => dp
  | dp, da, g, w, h + 1, sx, sy =>
      let offset := g.offsets.getD sy (-1)
      let row :=
        if 0 ≤ offset then
          glyphColorRow
            (fun a => fz_combine (fz_expand a) (fz_expand (colorbv.getD n 0)))
            n da colorbv (g.data.drop offset.toNat) sx w (dp.take span)
        else dp.take span
      row ++ fz_paint_glyph_alpha colorbv n span (dp.drop span) da g w h sx (sy + 1)

/-- `fz_paint_glyph` (draw-paint.c lines 2496-2513): a destination with a
colorspace selects solid mode when the color's alpha byte `colorbv[n]` is 255,
alpha mode when it is neither 255 nor 0, and nothing at all when it is 0; a
colorspace-free destination decodes the glyph as a raw mask. -/
def fz_paint_glyph (colorbv : List Nat) (dst : FzPixmap) (dp : List Nat)
    (g : FzGlyph) (w h sx sy : Nat) : List Nat :=
  let n := dst.n - dst.alpha
  if dst.colorspace then
    if colorbv.getD n 0 = 255 then
      fz_paint_glyph_solid colorbv n dst.stride dp dst.alpha g w h sx sy
    else if colorbv.getD n 0 ≠ 0 then
      fz_paint_glyph_alpha colorbv n dst.stride dp dst.alpha g w h sx sy
    else dp
  else fz_paint_glyph_mask dst.stride dp dst.alpha g w h sx sy

/- ------------------------------------------------------------------
Helper lemmas.
------------------------------------------------------------------- -/

theorem getD_tail (l : List Nat) (i : Nat) : l.tail.getD i 0 = l.getD (i + 1) 0 := by
  cases l <;> simp [List.getD]

theorem getD_drop (l : List Nat) (m i : Nat) :
    (l.drop m).getD i 0 = l.getD (m + i) 0 := by
  induction m generalizing l with
  | zero => simp
  | succ m ih =>
      cases l with
      | nil => simp
      | cons a t => simpa [Nat.succ_add] using ih t

theorem getD_lt (l : List Nat) (h : ∀ b ∈ l, b < 256) (k : Nat) :
    l.getD k 0 < 256 := by
  by_cases hk : k < l.length
  · rw [List.getD_eq_getElem l 0 hk]
    exact h _ (List.getElem_mem hk)
  · rw [List.getD_eq_default l 0 (by omega)]
    norm_num

theorem take_eq_map_range (l : List Nat) (m : Nat) (h : m ≤ l.length) :
    l.take m = (List.range m).map (fun k => l.getD k 0) := by
  apply List.ext_getElem
  · simp [List.length_take]
    omega
  · intro i h1 h2
    have hi : i < m := by simp [List.length_take] at h1; omega
    have hil : i < l.length := by omega
    simp [List.getElem_take, List.getD, List.getElem?_eq_getElem, hil]

theorem identityPixel (dp : List Nat) (n1 da : Nat) (hda : da ≤ 1)
    (hlen : n1 + da ≤ dp.length) :
    ((List.range n1).map (fun k => dp.getD k 0) ++
      (if da ≠ 0 then [dp.getD n1 0] else [])) = dp.take (n1 + da) := by
  cases da with
  | zero => simp [take_eq_map_range dp n1 (by omega)]
  | succ d =>
      have hd : d = 0 := by omega
      subst hd
      rw [take_eq_map_range dp (n1 + 1) (by omega), List.range_succ]
      simp

theorem fz_expand_zero : fz_expand 0 = 0 := rfl

theorem fz_combine_zero_left (w : Nat) : fz_combine 0 w = 0 := by
  simp [fz_combine]

theorem fz_combine_zero_right (x : Nat) : fz_combine x 0 = 0 := by
  simp [fz_combine]

theorem fz_combine_256 (d : Nat) : fz_combine d 256 = d := by
  simp [fz_combine, Nat.shiftRight_eq_div_pow]

theorem bstoreN_small (d : Nat) (h : d < 256) : bstoreN d = d :=
  Nat.mod_eq_of_lt h

theorem blendB_zero (s d : Nat) : blendB s d 0 = d % 256 := by
  simp [blendB, fz_blend, bstore]
  omega

theorem blendB_zero_small (s d : Nat) (h : d < 256) : blendB s d 0 = d := by
  rw [blendB_zero, Nat.mod_eq_of_lt h]

/- ------------------------------------------------------------------
Claim theorems: C1, C2, C8 (injected-slip divergences), C3, C4 (worked
examples), C9, C10 (entry-point guards).
------------------------------------------------------------------- -/

/-- C1: the claim states that the specialized n-channel solid-fill kernel and
the generic N-channel kernel selected for the same parameters produce
byte-identical output, in particular `paint_solid_color_4_da` versus
`paint_solid_color_N_da` at n = 5, da = 1.  The code violates this: for color
`[0,255,0,0,128]` on destination `[100,100,100,100,100,77]` with w = 1 the two
kernels write different bytes (`paint_solid_color_N_da` derives its alpha
weight from `color[1]` instead of the alpha byte `color[4]`, and the
specialized partial-alpha branch blends against `dp[5]` instead of `dp[4]`). -/
theorem solid_4_da_vs_N_da_diverge :
    paint_solid_color_4_da [100, 100, 100, 100, 100, 77] 5 1 [0, 255, 0, 0, 128] 1 ≠
      paint_solid_color_N_da [100, 100, 100, 100, 100, 77] 5 1 [0, 255, 0, 0, 128] 1 := by
  decide

/-- C2: the claim states that every kernel returned by
`fz_get_solid_color_painter` for a color with alpha byte 255 overwrites every
destination pixel with the exact color bytes (alpha byte set to 255).  The
code violates this on the generic N-channel destination-alpha path: for
n = 3, da = 1 the dispatcher returns `paint_solid_color_N_da`, which expands
`color[1]` (here 0) instead of the alpha byte `color[2]` (here 255) and
returns with the destination `[1,2,3]` untouched instead of writing
`[7,0,255]`. -/
theorem solid_full_opacity_N_da_fails :
    (fz_get_solid_color_painter 3 [7, 0, 255] 1).map
        (fun k => k [1, 2, 3] 3 1 [7, 0, 255] 1) = some [1, 2, 3] ∧
      ([1, 2, 3] : List Nat) ≠ [7, 0, 255] := by
  exact ⟨rfl, by decide⟩

/-- C8: the claim states that no kernel reads a destination byte beyond the
`w` pixels it writes, naming the partial-alpha branch of
`template_solid_color_4_da`.  The code violates this: with w = 1 the kernel
writes bytes 0..4 but those written bytes depend on destination byte 5 (the
source blends `dp[4]` from `dp[5]`) — two destinations that agree on the
written pixel (first five bytes) and differ only at the untouched byte 5
produce different bytes *inside* the written span (`take 5` of the outputs:
byte 4 is 128 versus 227). -/
theorem solid_4_da_reads_past_span :
    List.take 5 ([10, 20, 30, 40, 50, 0] : List Nat) =
        List.take 5 [10, 20, 30, 40, 50, 200] ∧
      (paint_solid_color_4_da [10, 20, 30, 40, 50, 0] 5 1 [1, 2, 3, 4, 128] 1).take 5 ≠
        (paint_solid_color_4_da [10, 20, 30, 40, 50, 200] 5 1 [1, 2, 3, 4, 128] 1).take 5 := by
  exact ⟨rfl, by decide⟩

/-- C3: the span-with-solid-color kernel selected for a 1-channel no-alpha
destination (`fz_get_span_color_painter 1 0`, i.e. `paint_span_with_color_1`),
applied to destination row `[50,50,50,50]` with color byte 100, color alpha
255 and mask row `[0,128,255,0]`, yields exactly `[50,75,100,50]`: pixel 1 is
`blend(100,50,expand(128)=129) = 75`, pixel 2 takes the full-coverage
overwrite, pixels 0 and 3 are skipped. -/
theorem span_color_1_worked_example :
    (fz_get_span_color_painter 1 0 [100, 255]).map
        (fun k => k [50, 50, 50, 50] [0, 128, 255, 0] 1 4 [100, 255] 0) =
      some [50, 75, 100, 50] := by
  rfl

/-- C4: decoding one glyph row of width 6 with skipX = 0 in mask mode from the
stream `[5, 22]` — header 5 is a Transparent run of length 2
(`5 &&& 3 = 1`, `(5 >>> 2) + 1 = 2`), header 22 a Solid run of length 3 with
the end-of-line flag (`22 &&& 3 = 2`, `(22 >>> 3) + 1 = 3`, `22 &&& 4 ≠ 0`) —
into an all-zero single-channel row yields exactly `[0,0,255,255,255,0]`: the
sixth byte stays 0 because the end-of-line flag stops the row. -/
theorem glyph_mask_run_decode_example :
    (5 : Nat) &&& 3 = 1 ∧ (5 >>> 2) + 1 = 2 ∧
      (22 : Nat) &&& 3 = 2 ∧ (22 >>> 3) + 1 = 3 ∧ (22 : Nat) &&& 4 ≠ 0 ∧
      fz_paint_glyph_mask 6 [0, 0, 0, 0, 0, 0] 1 ⟨6, 1, [0], [5, 22]⟩ 6 1 0 0 =
        [0, 0, 255, 255, 255, 0] := by
  exact ⟨by decide, by decide, by decide, by decide, by decide, by decide⟩

/-- C9: the pixmap-level entry points check their shape preconditions and
fail detectably without writing the destination: `fz_paint_pixmap` rejects
operands whose color-channel counts differ, and `fz_paint_pixmap_with_mask`
rejects a source whose total channel count differs from the destination's or
a mask whose channel count is not 1 (the C `assert`s, modelled as failures,
fire before any sample is written). -/
theorem pixmap_entry_points_reject_mismatch :
    (∀ (dst src : FzPixmap) (alpha : Nat), dst.n - dst.alpha ≠ src.n - src.alpha →
        fz_paint_pixmap dst src alpha =
          .error "assert: dst->n - dst->alpha == src->n - src->alpha") ∧
      (∀ dst src msk : FzPixmap, dst.n ≠ src.n ∨ msk.n ≠ 1 →
        ∃ e, fz_paint_pixmap_with_mask dst src msk = .error e) := by
  constructor
  · intro dst src alpha h
    simp [fz_paint_pixmap, h]
  · intro dst src msk h
    by_cases h1 : dst.n = src.n
    · rcases h with h | h
      · exact absurd h1 h
      · exact ⟨"assert: msk->n == 1", by simp [fz_paint_pixmap_with_mask, h1, h]⟩
    · exact ⟨"assert: dst->n == src->n", by simp [fz_paint_pixmap_with_mask, h1]⟩

/-- Witness for C9 at concrete pixmaps: a 2-channel-with-alpha destination
against a 1-channel-no-alpha source (color channel counts 1 versus 1?  no:
1 versus 1 would match — here 1 versus 2), and a mask with 2 channels. -/
theorem pixmap_entry_points_reject_mismatch_witness :
    fz_paint_pixmap ⟨0, 0, 1, 1, 2, 1, 2, false, [0, 0]⟩
        ⟨0, 0, 1, 1, 2, 0, 2, false, [0, 0]⟩ 255 =
      .error "assert: dst->n - dst->alpha == src->n - src->alpha" ∧
    ∃ e, fz_paint_pixmap_with_mask ⟨0, 0, 1, 1, 2, 1, 2, false, [0, 0]⟩
        ⟨0, 0, 1, 1, 1, 0, 1, false, [0]⟩ ⟨0, 0, 1, 1, 2, 0, 2, false, [0, 0]⟩ =
      .error e :=
  ⟨pixmap_entry_points_reject_mismatch.1 _ _ 255 (by decide),
   pixmap_entry_points_reject_mismatch.2 _ _ _ (Or.inl (by decide))⟩

/-- C10: for every destination pixmap carrying a colorspace and every color
whose alpha byte `colorbv[n]` is 0 (n the color-channel count),
`fz_paint_glyph` selects neither solid nor alpha mode and returns the
destination bytes unchanged. -/
theorem glyph_zero_alpha_no_write (colorbv : List Nat) (dst : FzPixmap)
    (dp : List Nat) (g : FzGlyph) (w h sx sy : Nat)
    (hcs : dst.colorspace = true)
    (h0 : colorbv.getD (dst.n - dst.alpha) 0 = 0) :
    fz_paint_glyph colorbv dst dp g w h sx sy = dp := by
  have h0' : colorbv[dst.n - dst.alpha]?.getD 0 = 0 := by
    simpa [List.getD] using h0
  simp [fz_paint_glyph, hcs, h0']

/-- Witness for C10: a 3+1-channel RGBA destination and color alpha byte 0. -/
theorem glyph_zero_alpha_no_write_witness :
    fz_paint_glyph [9, 9, 9, 0] ⟨0, 0, 1, 1, 4, 1, 4, true, [1, 2, 3, 4]⟩
      [1, 2, 3, 4] ⟨1, 1, [0], [6]⟩ 1 1 0 0 = [1, 2, 3, 4] :=
  glyph_zero_alpha_no_write _ _ _ _ 1 1 0 0 rfl rfl

/- ------------------------------------------------------------------
Claim theorems: C5 (intermediate-run first-paint rule) and C6 (end-of-line
semantics).
------------------------------------------------------------------- -/

theorem headD_eq_getD (l : List Nat) : l.headD 0 = l.getD 0 0 := by
  cases l <;> rfl

/-- C5: in mask-mode glyph decoding, for every Intermediate run and every
emitted position within it (position `i` of a run emitting `len` bytes), a
destination byte that is exactly 0 receives the payload coverage byte
verbatim, and any other destination byte `v` becomes
`blend(0xFF, v, expand(coverageByte))`. -/
theorem glyph_intermediate_first_paint (len : Nat) (run dest : List Nat)
    (i : Nat) (h : i < len) :
    (intermediateEmit len run dest).getD i 0 =
      if dest.getD i 0 = 0 then run.getD i 0
      else bstore (fz_blend 255 (dest.getD i 0) (fz_expand (run.getD i 0))) := by
  induction len generalizing run dest i with
  | zero => omega
  | succ m ih =>
      cases i with
      | zero =>
          rw [intermediateEmit, List.getD_cons_zero, headD_eq_getD, headD_eq_getD]
      | succ j =>
          rw [intermediateEmit]
          simp only [List.getD_cons_succ]
          rw [ih run.tail dest.tail j (by omega), getD_tail, getD_tail]

/-- Witness for C5: run `[10, 20]`, destination `[0, 50]`, position 1: the
destination byte 50 is non-zero, so it becomes
`blend(255, 50, expand(20)) = 50 + ((255 - 50) * 20 >> 8) = 66`. -/
theorem glyph_intermediate_first_paint_witness :
    (intermediateEmit 2 [10, 20] [0, 50]).getD 1 0 = 66 :=
  (glyph_intermediate_first_paint 2 [10, 20] [0, 50] 1 (by decide)).trans (by decide)

theorem intermediateEmit_congr (len : Nat) :
    ∀ run run' dest : List Nat, (∀ i < len, run.getD i 0 = run'.getD i 0) →
      intermediateEmit len run dest = intermediateEmit len run' dest := by
  induction len with
  | zero => intro run run' dest _; rfl
  | succ m ih =>
      intro run run' dest h
      rw [intermediateEmit, intermediateEmit]
      have h0 : run.headD 0 = run'.headD 0 := by
        rw [headD_eq_getD, headD_eq_getD]; exact h 0 (by omega)
      rw [h0, ih run.tail run'.tail dest.tail
        (fun i hi => by rw [getD_tail, getD_tail]; exact h (i + 1) (by omega))]

/-- C6: end-of-line semantics of glyph row decoding.  (a) When the emit loop
processes a Solid or an Intermediate run whose end-of-line flag is set, the
decoded row consists of that run's emitted bytes followed by the untouched
remainder of the destination — independent of the run's declared length
exceeding the remaining width and independent of everything later in the
stream (for an Intermediate run, of everything beyond its consumed payload).
(b) When the skip loop fully consumes a Solid or Intermediate run whose
end-of-line flag is set, the row emits nothing: the destination is returned
unchanged. -/
theorem glyph_eol_terminates_row :
    (∀ (fuel v : Nat) (run run' : List Nat) (ext ww : Nat) (dest : List Nat),
        ww ≠ 0 → v &&& 3 = 2 → v &&& 4 ≠ 0 →
        glyphRowEmit (fuel + 1) (v :: run) ext ww dest =
            List.replicate (min ((v >>> 3) + 1 + (ext <<< 5)) ww) 255 ++
              dest.drop (min ((v >>> 3) + 1 + (ext <<< 5)) ww) ∧
          glyphRowEmit (fuel + 1) (v :: run) ext ww dest =
            glyphRowEmit (fuel + 1) (v :: run') ext ww dest) ∧
    (∀ (fuel v : Nat) (run run' : List Nat) (ext ww : Nat) (dest : List Nat),
        ww ≠ 0 → v &&& 3 = 3 → v &&& 4 ≠ 0 →
        (∀ i < min ((v >>> 3) + 1 + (ext <<< 5)) ww, run.getD i 0 = run'.getD i 0) →
        glyphRowEmit (fuel + 1) (v :: run) ext ww dest =
            (intermediateEmit (min ((v >>> 3) + 1 + (ext <<< 5)) ww) run dest).take
                (min ((v >>> 3) + 1 + (ext <<< 5)) ww) ++
              dest.drop (min ((v >>> 3) + 1 + (ext <<< 5)) ww) ∧
          glyphRowEmit (fuel + 1) (v :: run) ext ww dest =
            glyphRowEmit (fuel + 1) (v :: run') ext ww dest) ∧
    (∀ (fuel v : Nat) (run : List Nat) (ext skipx ww : Nat) (dest : List Nat),
        skipx ≠ 0 → (v &&& 3 = 2 ∨ v &&& 3 = 3) → v &&& 4 ≠ 0 →
        (v >>> 3) + 1 + (ext <<< 5) ≤ skipx →
        glyphRowSkip (fuel + 1) (v :: run) ext skipx ww dest = dest) := by
  refine ⟨?_, ?_, ?_⟩
  · intro fuel v run run' ext ww dest hww htag heol
    have h0 : ¬(v &&& 3 = 0) := by omega
    have h1 : ¬(v &&& 3 = 1) := by omega
    constructor
    · rw [glyphRowEmit]
      simp [hww, h0, h1, htag, heol]
    · rw [glyphRowEmit, glyphRowEmit]
      simp [hww, h0, h1, htag, heol]
  · intro fuel v run run' ext ww dest hww htag heol hpay
    have h0 : ¬(v &&& 3 = 0) := by omega
    have h1 : ¬(v &&& 3 = 1) := by omega
    have h2 : ¬(v &&& 3 = 2) := by omega
    constructor
    · rw [glyphRowEmit]
      simp [hww, h0, h1, h2, heol]
    · rw [glyphRowEmit, glyphRowEmit]
      have hcg := intermediateEmit_congr _ run run' dest hpay
      simp [hww, h0, h1, h2, heol, hcg]
  · intro fuel v run ext skipx ww dest hskip htag heol hlen
    have h0 : ¬(v &&& 3 = 0) := by omega
    have h1 : ¬(v &&& 3 = 1) := by omega
    rcases htag with htag | htag
    · rw [glyphRowSkip]
      simp [hskip, h0, h1, htag, heol, Nat.not_lt.mpr hlen]
    · have h2 : ¬(v &&& 3 = 2) := by omega
      rw [glyphRowSkip]
      simp [hskip, h0, h1, h2, htag, heol, Nat.not_lt.mpr hlen]

/-- Witness for C6: header 22 is Solid(len 3, eol), header 15 Intermediate
(len 1, eol); the emit results are independent of the trailing stream bytes,
columns past the run keep their values, and a row whose first run (length 3,
eol) is fully consumed by skipX = 3 emits nothing. -/
theorem glyph_eol_terminates_row_witness :
    glyphRowEmit 1 [22, 9] 0 4 [7, 7, 7, 7, 7] = [255, 255, 255, 7, 7] ∧
      glyphRowEmit 1 [22, 9] 0 4 [7, 7, 7, 7, 7] =
        glyphRowEmit 1 [22, 8] 0 4 [7, 7, 7, 7, 7] ∧
      glyphRowEmit 1 [7, 40, 9] 0 4 [45, 7, 7] =
        glyphRowEmit 1 [7, 40, 3] 0 4 [45, 7, 7] ∧
      glyphRowSkip 1 [22, 9] 0 3 6 [1, 2, 3] = [1, 2, 3] := by
  refine ⟨?_, ?_, ?_, ?_⟩
  · exact ((glyph_eol_terminates_row.1 0 22 [9] [9] 0 4 [7, 7, 7, 7, 7]
      (by decide) (by decide) (by decide)).1).trans (by decide)
  · exact (glyph_eol_terminates_row.1 0 22 [9] [8] 0 4 [7, 7, 7, 7, 7]
      (by decide) (by decide) (by decide)).2
  · exact (glyph_eol_terminates_row.2.1 0 7 [40, 9] [40, 3] 0 4 [45, 7, 7]
      (by decide) (by decide) (by decide) (by decide)).2
  · exact glyph_eol_terminates_row.2.2 0 22 [9] 0 3 6 [1, 2, 3]
      (by decide) (Or.inl (by decide)) (by decide) (by decide)

/- ------------------------------------------------------------------
Zero-weight no-op lemmas for C7.
------------------------------------------------------------------- -/

theorem maskLoop_zero (n da sa : Nat) :
    ∀ (w : Nat) (dp sp mp : List Nat), (∀ i < w, mp.getD i 0 = 0) →
      maskLoop n da sa w dp sp mp = dp := by
  intro w
  induction w with
  | zero => intro dp sp mp _; rfl
  | succ m ih =>
      intro dp sp mp h
      have h0 : mp.headD 0 = 0 := by rw [headD_eq_getD]; exact h 0 (by omega)
      rw [maskLoop]
      simp only [h0, fz_expand_zero, if_pos]
      rw [ih (dp.drop (n + da)) (sp.drop (n + sa)) mp.tail
        (fun i hi => by rw [getD_tail]; exact h (i + 1) (by omega))]
      exact List.take_append_drop _ _

theorem maskLoop1_zero (da sa : Nat) :
    ∀ (w : Nat) (dp sp mp : List Nat), (∀ i < w, mp.getD i 0 = 0) →
      maskLoop1 da sa w dp sp mp = dp := by
  intro w
  induction w with
  | zero => intro dp sp mp _; rfl
  | succ m ih =>
      intro dp sp mp h
      have h0 : mp.headD 0 = 0 := by rw [headD_eq_getD]; exact h 0 (by omega)
      rw [maskLoop1]
      simp only [h0, fz_expand_zero, if_pos]
      rw [ih (dp.drop (1 + da)) (sp.drop (1 + sa)) mp.tail
        (fun i hi => by rw [getD_tail]; exact h (i + 1) (by omega))]
      exact List.take_append_drop _ _

theorem spanLoop_srcAlpha_zero (n1 da : Nat) :
    ∀ (w : Nat) (dp sp : List Nat),
      (∀ i < w, sp.getD (i * (n1 + 1) + n1) 0 = 0) →
      spanLoop n1 da 1 w dp sp = dp := by
  intro w
  induction w with
  | zero => intro dp sp _; rfl
  | succ m ih =>
      intro dp sp h
      have h0 : sp.getD n1 0 = 0 := by
        have := h 0 (by omega)
        simpa using this
      rw [spanLoop]
      simp only [h0, fz_expand_zero, ne_eq, one_ne_zero, not_false_eq_true,
        if_true, if_pos]
      rw [ih (dp.drop (n1 + da)) (sp.drop (n1 + 1)) ?_]
      · exact List.take_append_drop _ _
      · intro i hi
        rw [getD_drop]
        have harith : (n1 + 1) + (i * (n1 + 1) + n1) = (i + 1) * (n1 + 1) + n1 := by
          ring
        rw [harith]
        exact h (i + 1) (by omega)

theorem spanAlphaLoop_srcAlpha_zero (n1 da al : Nat) (hda : da ≤ 1) :
    ∀ (w : Nat) (dp sp : List Nat), (∀ b ∈ dp, b < 256) →
      w * (n1 + da) ≤ dp.length →
      (∀ i < w, sp.getD (i * (n1 + 1) + n1) 0 = 0) →
      spanAlphaLoop n1 da 1 al w dp sp = dp := by
  intro w
  induction w with
  | zero => intro dp sp _ _ _; rfl
  | succ m ih =>
      intro dp sp hb hlen h
      have he : (m + 1) * (n1 + da) = m * (n1 + da) + (n1 + da) := by ring
      have h0 : sp.getD n1 0 = 0 := by
        have := h 0 (by omega)
        simpa using this
      have hmap : ((List.range n1).map fun k => blendB (sp.getD k 0) (dp.getD k 0) 0) =
          (List.range n1).map fun k => dp.getD k 0 := by
        apply List.map_congr_left
        intro k _
        exact blendB_zero_small _ _ (getD_lt dp hb k)
      have hb1 : blendB 0 (dp.getD n1 0) 0 = dp.getD n1 0 :=
        blendB_zero_small _ _ (getD_lt dp hb n1)
      have hip := identityPixel dp n1 da hda (by omega)
      simp only [ne_eq] at hip
      rw [spanAlphaLoop]
      simp only [h0, fz_combine_zero_left, ne_eq, one_ne_zero, not_false_eq_true,
        if_true, hmap, hb1, hip]
      rw [ih (dp.drop (n1 + da)) (sp.drop (n1 + 1))
        (fun b hbm => hb b (List.mem_of_mem_drop hbm))
        (by simp only [List.length_drop]; omega) ?_]
      · exact List.take_append_drop _ _
      · intro i hi
        rw [getD_drop]
        have harith : (n1 + 1) + (i * (n1 + 1) + n1) = (i + 1) * (n1 + 1) + n1 := by
          ring
        rw [harith]
        exact h (i + 1) (by omega)

theorem span0Loop_zero :
    ∀ (w : Nat) (dp sp : List Nat), (∀ b ∈ dp, b < 256) → w ≤ dp.length →
      (∀ i < w, sp.getD i 0 = 0) → span0Loop w dp sp = dp := by
  intro w
  induction w with
  | zero => intro dp sp _ _ _; rfl
  | succ m ih =>
      intro dp sp hb hlen h
      have h0 : sp.headD 0 = 0 := by rw [headD_eq_getD]; exact h 0 (by omega)
      have hd : dp.headD 0 < 256 := by rw [headD_eq_getD]; exact getD_lt dp hb 0
      rw [span0Loop]
      simp only [h0, Nat.sub_zero, show fz_expand 255 = 256 from rfl,
        Nat.zero_add, fz_combine_256]
      rw [bstoreN_small _ hd]
      rw [ih (dp.drop 1) (sp.drop 1) (fun b hbm => hb b (List.mem_of_mem_drop hbm))
        (by simp only [List.length_drop]; omega)
        (fun i hi => by rw [getD_drop]; exact h (1 + i) (by omega))]
      cases dp with
      | nil => simp at hlen
      | cons a t => rfl

theorem span0AlphaLoop_zero (al : Nat) :
    ∀ (w : Nat) (dp sp : List Nat), (∀ b ∈ dp, b < 256) → w ≤ dp.length →
      (∀ i < w, sp.getD i 0 = 0) → span0AlphaLoop al w dp sp = dp := by
  intro w
  induction w with
  | zero => intro dp sp _ _ _; rfl
  | succ m ih =>
      intro dp sp hb hlen h
      have h0 : sp.headD 0 = 0 := by rw [headD_eq_getD]; exact h 0 (by omega)
      have hd : dp.headD 0 < 256 := by rw [headD_eq_getD]; exact getD_lt dp hb 0
      rw [span0AlphaLoop]
      simp only [h0, fz_combine_zero_left, blendB_zero_small _ _ hd]
      rw [ih (dp.drop 1) (sp.drop 1) (fun b hbm => hb b (List.mem_of_mem_drop hbm))
        (by simp only [List.length_drop]; omega)
        (fun i hi => by rw [getD_drop]; exact h (1 + i) (by omega))]
      cases dp with
      | nil => simp at hlen
      | cons a t => rfl

theorem take_two (dp : List Nat) (h : 2 ≤ dp.length) :
    dp.take 2 = [dp.getD 0 0, dp.getD 1 0] := by
  rw [take_eq_map_range dp 2 h]
  simp [List.range_succ]

theorem take_five (dp : List Nat) (h : 5 ≤ dp.length) :
    dp.take 5 = [dp.getD 0 0, dp.getD 1 0, dp.getD 2 0, dp.getD 3 0, dp.getD 4 0] := by
  rw [take_eq_map_range dp 5 h]
  simp [List.range_succ]

theorem spanColorNBlendPixel_zero (n1 da : Nat) (color dp : List Nat)
    (hda : da ≤ 1) (hb : ∀ b ∈ dp, b < 256) (hlen : n1 + da ≤ dp.length) :
    spanColorNBlendPixel n1 da 0 color dp = dp.take (n1 + da) := by
  rw [spanColorNBlendPixel]
  have hmap : ((List.range n1).map fun k => blendB (color.getD k 0) (dp.getD k 0) 0) =
      (List.range n1).map fun k => dp.getD k 0 := by
    apply List.map_congr_left
    intro k _
    exact blendB_zero_small _ _ (getD_lt dp hb k)
  have hb1 : blendB 255 (dp.getD n1 0) 0 = dp.getD n1 0 :=
    blendB_zero_small _ _ (getD_lt dp hb n1)
  have hip := identityPixel dp n1 da hda hlen
  simp only [ne_eq] at hip
  simp only [ne_eq, hmap, hb1, hip]

theorem spanColorNFull_mask_zero (n n1 da : Nat) (color : List Nat) :
    ∀ (w : Nat) (mp dp : List Nat), (∀ i < w, mp.getD i 0 = 0) →
      spanColorNFull n n1 da color w mp dp = dp := by
  intro w
  induction w with
  | zero => intro mp dp _; rfl
  | succ m ih =>
      intro mp dp h
      have h0 : mp.headD 0 = 0 := by rw [headD_eq_getD]; exact h 0 (by omega)
      rw [spanColorNFull]
      simp only [h0, fz_expand_zero, if_pos]
      rw [ih mp.tail (dp.drop n)
        (fun i hi => by rw [getD_tail]; exact h (i + 1) (by omega))]
      exact List.take_append_drop _ _

theorem spanColorNPart_mask_zero (n n1 da sa : Nat) (color : List Nat)
    (hda : da ≤ 1) (hn : n1 + da = n) :
    ∀ (w : Nat) (mp dp : List Nat), (∀ b ∈ dp, b < 256) → w * n ≤ dp.length →
      (∀ i < w, mp.getD i 0 = 0) →
      spanColorNPart n n1 da sa color w mp dp = dp := by
  intro w
  induction w with
  | zero => intro mp dp _ _ _; rfl
  | succ m ih =>
      intro mp dp hb hlen h
      have he : (m + 1) * n = m * n + n := by ring
      have h0 : mp.headD 0 = 0 := by rw [headD_eq_getD]; exact h 0 (by omega)
      have hpix : spanColorNBlendPixel n1 da 0 color dp = dp.take n := by
        rw [spanColorNBlendPixel_zero n1 da color dp hda hb (by omega), hn]
      rw [spanColorNPart]
      simp only [h0, fz_expand_zero, fz_combine_zero_left, hpix]
      rw [ih mp.tail (dp.drop n) (fun b hbm => hb b (List.mem_of_mem_drop hbm))
        (by simp only [List.length_drop]; omega)
        (fun i hi => by rw [getD_tail]; exact h (i + 1) (by omega))]
      exact List.take_append_drop _ _

theorem template_span_with_color_N_general_zero (n da : Nat) (color : List Nat)
    (hda : da ≤ 1) (hn : (n - da) + da = n) :
    ∀ (w : Nat) (mp dp : List Nat), (∀ b ∈ dp, b < 256) → w * n ≤ dp.length →
      ((∀ i < w, mp.getD i 0 = 0) ∨ color.getD (n - da) 0 = 0) →
      template_span_with_color_N_general dp mp n w color da = dp := by
  intro w mp dp hb hlen hcond
  rw [template_span_with_color_N_general]
  rcases hcond with hmask | hc0
  · by_cases hsa0 : fz_expand (color.getD (n - da) 0) = 0
    · simp only [hsa0, if_pos]
    · by_cases hsa256 : fz_expand (color.getD (n - da) 0) = 256
      · simp only [hsa256, if_neg hsa0, if_pos]
        exact spanColorNFull_mask_zero n (n - da) da color w mp dp hmask
      · simp only [if_neg hsa0, if_neg hsa256]
        exact spanColorNPart_mask_zero n (n - da) da _ color hda hn w mp dp hb hlen hmask
  · simp only [hc0, fz_expand_zero, if_pos]

theorem spanColor1daFull_mask_zero (g : Nat) :
    ∀ (w : Nat) (mp dp : List Nat), (∀ i < w, mp.getD i 0 = 0) →
      spanColor1daFull g w mp dp = dp := by
  intro w
  induction w with
  | zero => intro mp dp _; rfl
  | succ m ih =>
      intro mp dp h
      have h0 : mp.headD 0 = 0 := by rw [headD_eq_getD]; exact h 0 (by omega)
      rw [spanColor1daFull]
      simp only [h0, fz_expand_zero, if_pos]
      rw [ih mp.tail (dp.drop 2)
        (fun i hi => by rw [getD_tail]; exact h (i + 1) (by omega))]
      exact List.take_append_drop _ _

theorem spanColor1daPart_mask_zero (g sa : Nat) :
    ∀ (w : Nat) (mp dp : List Nat), (∀ i < w, mp.getD i 0 = 0) →
      spanColor1daPart g sa w mp dp = dp := by
  intro w
  induction w with
  | zero => intro mp dp _; rfl
  | succ m ih =>
      intro mp dp h
      have h0 : mp.headD 0 = 0 := by rw [headD_eq_getD]; exact h 0 (by omega)
      rw [spanColor1daPart]
      simp only [h0, fz_expand_zero, if_pos]
      rw [ih mp.tail (dp.drop 2)
        (fun i hi => by rw [getD_tail]; exact h (i + 1) (by omega))]
      exact List.take_append_drop _ _

theorem spanColor1daPart_sa_zero (g : Nat) :
    ∀ (w : Nat) (mp dp : List Nat), (∀ b ∈ dp, b < 256) → w * 2 ≤ dp.length →
      spanColor1daPart g 0 w mp dp = dp := by
  intro w
  induction w with
  | zero => intro mp dp _ _; rfl
  | succ m ih =>
      intro mp dp hb hlen
      have he : (m + 1) * 2 = m * 2 + 2 := by ring
      have hpix : (if fz_expand (mp.headD 0) = 0 then dp.take 2
          else [blendB g (dp.getD 0 0) (fz_combine (fz_expand (mp.headD 0)) 0),
                blendB 255 (dp.getD 1 0) (fz_combine (fz_expand (mp.headD 0)) 0)]) =
          dp.take 2 := by
        by_cases hma : fz_expand (mp.headD 0) = 0
        · simp only [hma, if_pos]
        · simp only [if_neg hma, fz_combine_zero_right,
            blendB_zero_small _ _ (getD_lt dp hb 0),
            blendB_zero_small _ _ (getD_lt dp hb 1)]
          rw [take_two dp (by omega)]
      rw [spanColor1daPart]
      simp only [fz_combine_zero_right] at hpix ⊢
      rw [hpix]
      rw [ih mp.tail (dp.drop 2) (fun b hbm => hb b (List.mem_of_mem_drop hbm))
        (by simp only [List.length_drop]; omega)]
      exact List.take_append_drop _ _

theorem template_span_with_color_1_da_zero (n da : Nat) (color : List Nat) :
    ∀ (w : Nat) (mp dp : List Nat), (∀ b ∈ dp, b < 256) → w * 2 ≤ dp.length →
      ((∀ i < w, mp.getD i 0 = 0) ∨ color.getD 1 0 = 0) →
      template_span_with_color_1_da dp mp n w color da = dp := by
  intro w mp dp hb hlen hcond
  rw [template_span_with_color_1_da]
  rcases hcond with hmask | hc0
  · by_cases hsa256 : fz_expand (color.getD 1 0) = 256
    · simp only [hsa256, if_pos]
      exact spanColor1daFull_mask_zero _ w mp dp hmask
    · simp only [if_neg hsa256]
      exact spanColor1daPart_mask_zero _ _ w mp dp hmask
  · have hsa : fz_expand (color.getD 1 0) = 0 := by rw [hc0]; rfl
    rw [hsa]
    simp only [show (0 : Nat) ≠ 256 by decide, if_neg, if_false]
    exact spanColor1daPart_sa_zero _ w mp dp hb hlen

theorem spanColor3daFull_mask_zero (be : Bool) (mask rgba rb ga : Nat) :
    ∀ (w : Nat) (mp dp : List Nat), (∀ i < w, mp.getD i 0 = 0) →
      spanColor3daFull be mask rgba rb ga w mp dp = dp := by
  intro w
  induction w with
  | zero => intro mp dp _; rfl
  | succ m ih =>
      intro mp dp h
      have h0 : mp.headD 0 = 0 := by rw [headD_eq_getD]; exact h 0 (by omega)
      rw [spanColor3daFull]
      simp only [h0, fz_expand_zero, if_pos]
      rw [ih mp.tail (dp.drop 4)
        (fun i hi => by rw [getD_tail]; exact h (i + 1) (by omega))]
      exact List.take_append_drop _ _

theorem spanColor3daPart_mask_zero (be : Bool) (mask rb ga sa : Nat) :
    ∀ (w : Nat) (mp dp : List Nat), (∀ i < w, mp.getD i 0 = 0) →
      spanColor3daPart be mask rb ga sa w mp dp = dp := by
  intro w
  induction w with
  | zero => intro mp dp _; rfl
  | succ m ih =>
      intro mp dp h
      have h0 : mp.headD 0 = 0 := by rw [headD_eq_getD]; exact h 0 (by omega)
      rw [spanColor3daPart]
      simp only [h0, fz_expand_zero, fz_combine_zero_left, ne_eq,
        not_true_eq_false, if_false, ite_false]
      rw [ih mp.tail (dp.drop 4)
        (fun i hi => by rw [getD_tail]; exact h (i + 1) (by omega))]
      exact List.take_append_drop _ _

theorem template_span_with_color_3_da_zero (be : Bool) (n da : Nat)
    (color : List Nat) :
    ∀ (w : Nat) (mp dp : List Nat),
      ((∀ i < w, mp.getD i 0 = 0) ∨ color.getD 3 0 = 0) →
      template_span_with_color_3_da be dp mp n w color da = dp := by
  intro w mp dp hcond
  rw [template_span_with_color_3_da]
  rcases hcond with hmask | hc0
  · by_cases hsa0 : fz_expand (color.getD 3 0) = 0
    · simp only [hsa0, if_pos]
    · by_cases hsa256 : fz_expand (color.getD 3 0) = 256
      · simp only [hsa256, if_neg hsa0, if_pos]
        exact spanColor3daFull_mask_zero be _ _ _ _ w mp dp hmask
      · simp only [if_neg hsa0, if_neg hsa256]
        exact spanColor3daPart_mask_zero be _ _ _ _ w mp dp hmask
  · have hsa : fz_expand (color.getD 3 0) = 0 := by rw [hc0]; rfl
    simp only [hsa, if_pos]

theorem spanColor4daFull_mask_zero (c my y k : Nat) :
    ∀ (w : Nat) (mp dp : List Nat), (∀ i < w, mp.getD i 0 = 0) →
      spanColor4daFull c my y k w mp dp = dp := by
  intro w
  induction w with
  | zero => intro mp dp _; rfl
  | succ m ih =>
      intro mp dp h
      have h0 : mp.headD 0 = 0 := by rw [headD_eq_getD]; exact h 0 (by omega)
      rw [spanColor4daFull]
      simp only [h0, fz_expand_zero, if_pos]
      rw [ih mp.tail (dp.drop 5)
        (fun i hi => by rw [getD_tail]; exact h (i + 1) (by omega))]
      exact List.take_append_drop _ _

theorem spanColor4daPart_mask_zero (c my y k sa : Nat) :
    ∀ (w : Nat) (mp dp : List Nat), (∀ i < w, mp.getD i 0 = 0) →
      spanColor4daPart c my y k sa w mp dp = dp := by
  intro w
  induction w with
  | zero => intro mp dp _; rfl
  | succ m ih =>
      intro mp dp h
      have h0 : mp.headD 0 = 0 := by rw [headD_eq_getD]; exact h 0 (by omega)
      rw [spanColor4daPart]
      simp only [h0, fz_expand_zero, if_pos]
      rw [ih mp.tail (dp.drop 5)
        (fun i hi => by rw [getD_tail]; exact h (i + 1) (by omega))]
      exact List.take_append_drop _ _

theorem spanColor4daPart_sa_zero (c my y k : Nat) :
    ∀ (w : Nat) (mp dp : List Nat), (∀ b ∈ dp, b < 256) → w * 5 ≤ dp.length →
      spanColor4daPart c my y k 0 w mp dp = dp := by
  intro w
  induction w with
  | zero => intro mp dp _ _; rfl
  | succ m ih =>
      intro mp dp hb hlen
      have he : (m + 1) * 5 = m * 5 + 5 := by ring
      have hpix : (if fz_expand (mp.headD 0) = 0 then dp.take 5
          else [blendB c (dp.getD 0 0) (fz_combine (fz_expand (mp.headD 0)) 0),
                blendB my (dp.getD 1 0) (fz_combine (fz_expand (mp.headD 0)) 0),
                blendB y (dp.getD 2 0) (fz_combine (fz_expand (mp.headD 0)) 0),
                blendB k (dp.getD 3 0) (fz_combine (fz_expand (mp.headD 0)) 0),
                blendB 255 (dp.getD 4 0) (fz_combine (fz_expand (mp.headD 0)) 0)]) =
          dp.take 5 := by
        by_cases hma : fz_expand (mp.headD 0) = 0
        · simp only [hma, if_pos]
        · simp only [if_neg hma, fz_combine_zero_right,
            blendB_zero_small _ _ (getD_lt dp hb 0),
            blendB_zero_small _ _ (getD_lt dp hb 1),
            blendB_zero_small _ _ (getD_lt dp hb 2),
            blendB_zero_small _ _ (getD_lt dp hb 3),
            blendB_zero_small _ _ (getD_lt dp hb 4)]
          rw [take_five dp (by omega)]
      rw [spanColor4daPart]
      simp only [fz_combine_zero_right] at hpix ⊢
      rw [hpix]
      rw [ih mp.tail (dp.drop 5) (fun b hbm => hb b (List.mem_of_mem_drop hbm))
        (by simp only [List.length_drop]; omega)]
      exact List.take_append_drop _ _

theorem template_span_with_color_4_da_zero (n da : Nat) (color : List Nat) :
    ∀ (w : Nat) (mp dp : List Nat), (∀ b ∈ dp, b < 256) → w * 5 ≤ dp.length →
      ((∀ i < w, mp.getD i 0 = 0) ∨ color.getD 4 0 = 0) →
      template_span_with_color_4_da dp mp n w color da = dp := by
  intro w mp dp hb hlen hcond
  rw [template_span_with_color_4_da]
  rcases hcond with hmask | hc0
  · by_cases hsa256 : fz_expand (color.getD 4 0) = 256
    · simp only [hsa256, if_pos]
      exact spanColor4daFull_mask_zero _ _ _ _ w mp dp hmask
    · simp only [if_neg hsa256]
      exact spanColor4daPart_mask_zero _ _ _ _ _ w mp dp hmask
  · have hsa : fz_expand (color.getD 4 0) = 0 := by rw [hc0]; rfl
    rw [hsa]
    simp only [show (0 : Nat) ≠ 256 by decide, if_neg, if_false]
    exact spanColor4daPart_sa_zero _ _ _ _ w mp dp hb hlen

theorem fix_iterate {α : Type} (f : α → α) (a : α) (h : f a = a) :
    ∀ m, f^[m] a = a :=
  fun m => Function.iterate_fixed h m

/-- C7: zero-weight operations are no-ops, for every kernel each dispatcher can
return.  (1) Every span-over kernel returned by `fz_get_span_painter` with a
source alpha channel leaves a byte destination unchanged when every source
pixel's alpha byte is 0, and so does any number of repeated applications.
(2) Every span-with-mask kernel returned by `fz_get_span_mask_painter` leaves
the destination unchanged when every mask byte is 0, and so does any number of
repeated applications.  (3) Every span-with-solid-color kernel returned by
`fz_get_span_color_painter` (destination shapes per the §3 invariants:
`da ≤ 1 ≤ n`) leaves a byte destination unchanged when every mask byte is 0 or
the color's alpha byte is 0, and so does any number of repeated applications. -/
theorem zero_weight_kernels_no_op :
    (∀ (da sa n alpha : Nat) (k : SpanKernel), sa ≠ 0 →
        fz_get_span_painter da sa n alpha = some k →
        ∀ (w : Nat) (dp sp : List Nat), (∀ b ∈ dp, b < 256) →
          w * (n + 1) ≤ dp.length →
          (∀ i < w, sp.getD (i * (n + 1) + n) 0 = 0) →
          k dp da sp sa n w alpha = dp ∧
            ∀ m, (fun d => k d da sp sa n w alpha)^[m] dp = dp) ∧
    (∀ (da sa n : Nat) (k : SpanMaskKernel),
        fz_get_span_mask_painter da sa n = some k →
        ∀ (w : Nat) (dp sp mp : List Nat), (∀ i < w, mp.getD i 0 = 0) →
          k dp da sp sa mp n w = dp ∧
            ∀ m, (fun d => k d da sp sa mp n w)^[m] dp = dp) ∧
    (∀ (n da : Nat) (color : List Nat) (k : SpanColorKernel), da ≤ 1 → 1 ≤ n →
        fz_get_span_color_painter n da color = some k →
        ∀ (w : Nat) (dp mp : List Nat), (∀ b ∈ dp, b < 256) →
          w * n ≤ dp.length →
          ((∀ i < w, mp.getD i 0 = 0) ∨ color.getD (n - da) 0 = 0) →
          k dp mp n w color da = dp ∧
            ∀ m, (fun d => k d mp n w color da)^[m] dp = dp) := by
  refine ⟨?_, ?_, ?_⟩
  · -- span-over kernels
    intro da sa n alpha k hsa0 hdisp w dp sp hb hlen hz
    rw [fz_get_span_painter] at hdisp
    by_cases hn0 : n = 0
    · subst hn0
      rw [if_pos rfl] at hdisp
      by_cases ha1 : alpha = 255
      · rw [if_pos ha1] at hdisp
        obtain rfl := Option.some.inj hdisp
        have hfix : paint_span_0_da_sa dp da sp sa 0 w alpha = dp :=
          span0Loop_zero w dp sp hb (by omega)
            (fun i hi => by simpa using hz i hi)
        exact ⟨hfix, fix_iterate _ _ hfix⟩
      · rw [if_neg ha1] at hdisp
        by_cases ha2 : 0 < alpha
        · rw [if_pos ha2] at hdisp
          obtain rfl := Option.some.inj hdisp
          have hfix : paint_span_0_da_sa_alpha dp da sp sa 0 w alpha = dp :=
            span0AlphaLoop_zero (fz_expand alpha) w dp sp hb (by omega)
              (fun i hi => by simpa using hz i hi)
          exact ⟨hfix, fix_iterate _ _ hfix⟩
        · rw [if_neg ha2] at hdisp
          exact Option.noConfusion hdisp
    · rw [if_neg hn0] at hdisp
      by_cases hn1 : n = 1
      · subst hn1
        rw [if_pos rfl, if_pos hsa0] at hdisp
        by_cases hdd : da ≠ 0
        · rw [if_pos hdd] at hdisp
          by_cases ha1 : alpha = 255
          · rw [if_pos ha1] at hdisp
            obtain rfl := Option.some.inj hdisp
            have hfix : paint_span_1_da_sa dp da sp sa 1 w alpha = dp :=
              spanLoop_srcAlpha_zero 1 1 w dp sp hz
            exact ⟨hfix, fix_iterate _ _ hfix⟩
          · rw [if_neg ha1] at hdisp
            by_cases ha2 : 0 < alpha
            · rw [if_pos ha2] at hdisp
              obtain rfl := Option.some.inj hdisp
              have hfix : paint_span_1_da_sa_alpha dp da sp sa 1 w alpha = dp :=
                spanAlphaLoop_srcAlpha_zero 1 1 (fz_expand alpha) (by omega)
                  w dp sp hb (by omega) hz
              exact ⟨hfix, fix_iterate _ _ hfix⟩
            · rw [if_neg ha2] at hdisp
              exact Option.noConfusion hdisp
        · rw [if_neg hdd] at hdisp
          by_cases ha1 : alpha = 255
          · rw [if_pos ha1] at hdisp
            obtain rfl := Option.some.inj hdisp
            have hfix : paint_span_1_sa dp da sp sa 1 w alpha = dp :=
              spanLoop_srcAlpha_zero 1 0 w dp sp hz
            exact ⟨hfix, fix_iterate _ _ hfix⟩
          · rw [if_neg ha1] at hdisp
            by_cases ha2 : 0 < alpha
            · rw [if_pos ha2] at hdisp
              obtain rfl := Option.some.inj hdisp
              have hfix : paint_span_1_sa_alpha dp da sp sa 1 w alpha = dp :=
                spanAlphaLoop_srcAlpha_zero 1 0 (fz_expand alpha) (by omega)
                  w dp sp hb (by omega) hz
              exact ⟨hfix, fix_iterate _ _ hfix⟩
            · rw [if_neg ha2] at hdisp
              exact Option.noConfusion hdisp
      · rw [if_neg hn1] at hdisp
        by_cases hn3 : n = 3
        · subst hn3
          rw [if_pos rfl] at hdisp
          by_cases hdd : da ≠ 0
          · rw [if_pos hdd, if_pos hsa0] at hdisp
            by_cases ha1 : alpha = 255
            · rw [if_pos ha1] at hdisp
              obtain rfl := Option.some.inj hdisp
              have hfix : paint_span_3_da_sa dp da sp sa 3 w alpha = dp :=
                spanLoop_srcAlpha_zero 3 1 w dp sp hz
              exact ⟨hfix, fix_iterate _ _ hfix⟩
            · rw [if_neg ha1] at hdisp
              by_cases ha2 : 0 < alpha
              · rw [if_pos ha2] at hdisp
                obtain rfl := Option.some.inj hdisp
                have hfix : paint_span_3_da_sa_alpha dp da sp sa 3 w alpha = dp :=
                  spanAlphaLoop_srcAlpha_zero 3 1 (fz_expand alpha) (by omega)
                    w dp sp hb (by omega) hz
                exact ⟨hfix, fix_iterate _ _ hfix⟩
              · rw [if_neg ha2] at hdisp
                exact Option.noConfusion hdisp
          · rw [if_neg hdd, if_pos hsa0] at hdisp
            by_cases ha1 : alpha = 255
            · rw [if_pos ha1] at hdisp
              obtain rfl := Option.some.inj hdisp
              have hfix : paint_span_3_sa dp da sp sa 3 w alpha = dp :=
                spanLoop_srcAlpha_zero 3 0 w dp sp hz
              exact ⟨hfix, fix_iterate _ _ hfix⟩
            · rw [if_neg ha1] at hdisp
              by_cases ha2 : 0 < alpha
              · rw [if_pos ha2] at hdisp
                obtain rfl := Option.some.inj hdisp
                have hfix : paint_span_3_sa_alpha dp da sp sa 3 w alpha = dp :=
                  spanAlphaLoop_srcAlpha_zero 3 0 (fz_expand alpha) (by omega)
                    w dp sp hb (by omega) hz
                exact ⟨hfix, fix_iterate _ _ hfix⟩
              · rw [if_neg ha2] at hdisp
                exact Option.noConfusion hdisp
        · rw [if_neg hn3] at hdisp
          by_cases hn4 : n = 4
          · subst hn4
            rw [if_pos rfl] at hdisp
            by_cases hdd : da ≠ 0
            · rw [if_pos hdd, if_pos hsa0] at hdisp
              by_cases ha1 : alpha = 255
              · rw [if_pos ha1] at hdisp
                obtain rfl := Option.some.inj hdisp
                have hfix : paint_span_4_da_sa dp da sp sa 4 w alpha = dp :=
                  spanLoop_srcAlpha_zero 4 1 w dp sp hz
                exact ⟨hfix, fix_iterate _ _ hfix⟩
              · rw [if_neg ha1] at hdisp
                by_cases ha2 : 0 < alpha
                · rw [if_pos ha2] at hdisp
                  obtain rfl := Option.some.inj hdisp
                  have hfix : paint_span_4_da_sa_alpha dp da sp sa 4 w alpha = dp :=
                    spanAlphaLoop_srcAlpha_zero 4 1 (fz_expand alpha) (by omega)
                      w dp sp hb (by omega) hz
                  exact ⟨hfix, fix_iterate _ _ hfix⟩
                · rw [if_neg ha2] at hdisp
                  exact Option.noConfusion hdisp
            · rw [if_neg hdd, if_pos hsa0] at hdisp
              by_cases ha1 : alpha = 255
              · rw [if_pos ha1] at hdisp
                obtain rfl := Option.some.inj hdisp
                have hfix : paint_span_4_sa dp da sp sa 4 w alpha = dp :=
                  spanLoop_srcAlpha_zero 4 0 w dp sp hz
                exact ⟨hfix, fix_iterate _ _ hfix⟩
              · rw [if_neg ha1] at hdisp
                by_cases ha2 : 0 < alpha
                · rw [if_pos ha2] at hdisp
                  obtain rfl := Option.some.inj hdisp
                  have hfix : paint_span_4_sa_alpha dp da sp sa 4 w alpha = dp :=
                    spanAlphaLoop_srcAlpha_zero 4 0 (fz_expand alpha) (by omega)
                      w dp sp hb (by omega) hz
                  exact ⟨hfix, fix_iterate _ _ hfix⟩
                · rw [if_neg ha2] at hdisp
                  exact Option.noConfusion hdisp
          · rw [if_neg hn4] at hdisp
            by_cases hdd : da ≠ 0
            · rw [if_pos hdd, if_pos hsa0] at hdisp
              by_cases ha1 : alpha = 255
              · rw [if_pos ha1] at hdisp
                obtain rfl := Option.some.inj hdisp
                have hfix : paint_span_N_da_sa dp da sp sa n w alpha = dp :=
                  spanLoop_srcAlpha_zero n 1 w dp sp hz
                exact ⟨hfix, fix_iterate _ _ hfix⟩
              · rw [if_neg ha1] at hdisp
                by_cases ha2 : 0 < alpha
                · rw [if_pos ha2] at hdisp
                  obtain rfl := Option.some.inj hdisp
                  have hfix : paint_span_N_da_sa_alpha dp da sp sa n w alpha = dp :=
                    spanAlphaLoop_srcAlpha_zero n 1 (fz_expand alpha) (by omega)
                      w dp sp hb hlen hz
                  exact ⟨hfix, fix_iterate _ _ hfix⟩
                · rw [if_neg ha2] at hdisp
                  exact Option.noConfusion hdisp
            · rw [if_neg hdd, if_pos hsa0] at hdisp
              by_cases ha1 : alpha = 255
              · rw [if_pos ha1] at hdisp
                obtain rfl := Option.some.inj hdisp
                have hfix : paint_span_N_sa dp da sp sa n w alpha = dp :=
                  spanLoop_srcAlpha_zero n 0 w dp sp hz
                exact ⟨hfix, fix_iterate _ _ hfix⟩
              · rw [if_neg ha1] at hdisp
                by_cases ha2 : 0 < alpha
                · rw [if_pos ha2] at hdisp
                  obtain rfl := Option.some.inj hdisp
                  have hfix : paint_span_N_sa_alpha dp da sp sa n w alpha = dp :=
                    spanAlphaLoop_srcAlpha_zero n 0 (fz_expand alpha) (by omega)
                      w dp sp hb
                      (le_trans (Nat.mul_le_mul_left w (by omega)) hlen) hz
                  exact ⟨hfix, fix_iterate _ _ hfix⟩
                · rw [if_neg ha2] at hdisp
                  exact Option.noConfusion hdisp
  · -- span-with-mask kernels
    intro da sa n k hdisp w dp sp mp hm
    have hfixN : ∀ (n' da' sa' : Nat), maskLoop n' da' sa' w dp sp mp = dp :=
      fun n' da' sa' => maskLoop_zero n' da' sa' w dp sp mp hm
    have hfix1 : ∀ (da' sa' : Nat), maskLoop1 da' sa' w dp sp mp = dp :=
      fun da' sa' => maskLoop1_zero da' sa' w dp sp mp hm
    rw [fz_get_span_mask_painter] at hdisp
    split_ifs at hdisp <;>
      first
        | exact Option.noConfusion hdisp
        | (obtain rfl := Option.some.inj hdisp
           exact ⟨hfixN _ _ _, fix_iterate _ _ (hfixN _ _ _)⟩)
        | (obtain rfl := Option.some.inj hdisp
           exact ⟨hfix1 _ _, fix_iterate _ _ (hfix1 _ _)⟩)
  · -- span-with-solid-color kernels
    intro n da color k hda hn1 hdisp w dp mp hb hlen hcond
    rw [fz_get_span_color_painter] at hdisp
    by_cases hd0 : da = 0
    · subst hd0
      rw [if_neg (by omega : ¬((n : Int) - (0 : Nat) = 0))] at hdisp
      by_cases hn : n = 1
      · subst hn
        rw [if_pos (by norm_num)] at hdisp
        rw [if_neg (by norm_num)] at hdisp
        obtain rfl := Option.some.inj hdisp
        have hfix : paint_span_with_color_1 dp mp 1 w color 0 = dp :=
          template_span_with_color_N_general_zero 1 0 color (by omega) (by omega)
            w mp dp hb hlen hcond
        exact ⟨hfix, fix_iterate _ _ hfix⟩
      · rw [if_neg (by omega : ¬((n : Int) - (0 : Nat) = 1))] at hdisp
        by_cases hn3 : n = 3
        · subst hn3
          rw [if_pos (by norm_num), if_neg (by norm_num)] at hdisp
          obtain rfl := Option.some.inj hdisp
          have hfix : paint_span_with_color_3 dp mp 3 w color 0 = dp :=
            template_span_with_color_N_general_zero 3 0 color (by omega) (by omega)
              w mp dp hb hlen hcond
          exact ⟨hfix, fix_iterate _ _ hfix⟩
        · rw [if_neg (by omega : ¬((n : Int) - (0 : Nat) = 3))] at hdisp
          by_cases hn4 : n = 4
          · subst hn4
            rw [if_pos (by norm_num), if_neg (by norm_num)] at hdisp
            obtain rfl := Option.some.inj hdisp
            have hfix : paint_span_with_color_4 dp mp 4 w color 0 = dp :=
              template_span_with_color_N_general_zero 4 0 color (by omega) (by omega)
                w mp dp hb hlen hcond
            exact ⟨hfix, fix_iterate _ _ hfix⟩
          · rw [if_neg (by omega : ¬((n : Int) - (0 : Nat) = 4)),
              if_neg (by norm_num)] at hdisp
            obtain rfl := Option.some.inj hdisp
            have hfix : paint_span_with_color_N dp mp n w color 0 = dp :=
              template_span_with_color_N_general_zero n 0 color (by omega) (by omega)
                w mp dp hb hlen hcond
            exact ⟨hfix, fix_iterate _ _ hfix⟩
    · have hd1 : da = 1 := by omega
      subst hd1
      by_cases hn : n = 1
      · subst hn
        rw [if_pos (by norm_num), if_pos (by norm_num)] at hdisp
        obtain rfl := Option.some.inj hdisp
        have hfix : paint_span_with_color_0_da dp mp 1 w color 1 = dp :=
          template_span_with_color_N_general_zero 1 1 color (by omega) (by omega)
            w mp dp hb hlen hcond
        exact ⟨hfix, fix_iterate _ _ hfix⟩
      · rw [if_neg (by omega : ¬((n : Int) - (1 : Nat) = 0))] at hdisp
        by_cases hn2 : n = 2
        · subst hn2
          rw [if_pos (by norm_num), if_pos (by norm_num)] at hdisp
          obtain rfl := Option.some.inj hdisp
          have hfix : paint_span_with_color_1_da dp mp 2 w color 1 = dp :=
            template_span_with_color_1_da_zero 2 1 color w mp dp hb hlen
              (by simpa using hcond)
          exact ⟨hfix, fix_iterate _ _ hfix⟩
        · rw [if_neg (by omega : ¬((n : Int) - (1 : Nat) = 1))] at hdisp
          by_cases hn4 : n = 4
          · subst hn4
            rw [if_pos (by norm_num), if_pos (by norm_num)] at hdisp
            obtain rfl := Option.some.inj hdisp
            have hfix : paint_span_with_color_3_da dp mp 4 w color 1 = dp :=
              template_span_with_color_3_da_zero false 4 1 color w mp dp
                (by simpa using hcond)
            exact ⟨hfix, fix_iterate _ _ hfix⟩
          · rw [if_neg (by omega : ¬((n : Int) - (1 : Nat) = 3))] at hdisp
            by_cases hn5 : n = 5
            · subst hn5
              rw [if_pos (by norm_num), if_pos (by norm_num)] at hdisp
              obtain rfl := Option.some.inj hdisp
              have hfix : paint_span_with_color_4_da dp mp 5 w color 1 = dp :=
                template_span_with_color_4_da_zero 5 1 color w mp dp hb hlen
                  (by simpa using hcond)
              exact ⟨hfix, fix_iterate _ _ hfix⟩
            · rw [if_neg (by omega : ¬((n : Int) - (1 : Nat) = 4)),
                if_pos (by norm_num)] at hdisp
              obtain rfl := Option.some.inj hdisp
              have hfix : paint_span_with_color_N_da dp mp n w color 1 = dp :=
                template_span_with_color_N_general_zero n 1 color (by omega)
                  (by omega) w mp dp hb hlen hcond
              exact ⟨hfix, fix_iterate _ _ hfix⟩

/-- Witness for C7: concrete zero-weight applications of a span-over kernel
(1 channel, source alpha, all source alpha bytes 0), a span-with-mask kernel
(1 channel, zero mask) and a span-with-solid-color kernel (1 channel, zero
mask), each leaving the destination unchanged; the first also iterated twice. -/
theorem zero_weight_kernels_no_op_witness :
    paint_span_1_sa [7, 8] 0 [9, 0] 1 1 1 255 = [7, 8] ∧
      (fun d => paint_span_1_sa d 0 [9, 0] 1 1 1 255)^[2] [7, 8] = [7, 8] ∧
      paint_span_with_mask_1 [5] 0 [9] 0 [0] 1 1 = [5] ∧
      paint_span_with_color_1 [3, 4] [0] 1 1 [100, 255] 0 = [3, 4] := by
  have h1 := zero_weight_kernels_no_op.1 0 1 1 255 paint_span_1_sa (by decide)
    (by rfl) 1 [7, 8] [9, 0] (by decide) (by decide) (by decide)
  have h2 := zero_weight_kernels_no_op.2.1 0 0 1 paint_span_with_mask_1
    (by rfl) 1 [5] [9] [0] (by decide)
  have h3 := zero_weight_kernels_no_op.2.2 1 0 [100, 255] paint_span_with_color_1
    (by decide) (by decide) (by rfl) 1 [3, 4] [0] (by decide) (by decide)
    (Or.inl (by decide))
  exact ⟨h1.1, h1.2 2, h2.1, h3.1⟩

end DrawPaint
